import Mathlib

/-!
# Popeye sanitizers: skip-code resolution, container checks, daemon set utilization

A shallow embedding of three source files of the repository:

* `internal/annotation_config/annotation_config.go` (`NewSkipAnnotationConfig`),
* `internal/sanitize/container.go` (the `Container` linter),
* `internal/sanitize/ds.go` (the `DaemonSet` sanitizer).

Go strings are sequences of characters; the Go standard library functions the
sources call (`strings.Split`, `strings.Trim`, `strconv.Atoi`) are embedded over
`List Char`. The issue collector and the consumption-metrics helpers live in
packages whose sources are not part of the three files; they are modelled from
the specification and marked as such.
-/

set_option linter.dupNamespace false

namespace Popeye

/-! ## Go standard library -/

/-- Go `strings.Split(s, sep)` for a one-character separator (both call sites
pass one, `","` and `":"`): the substrings between the separators, in order.
A string without the separator gives the one-element list `[s]`; the empty
string gives `[""]`. -/
def strings.Split : List Char → Char → List (List Char)
  | [], _ => [[]]
  | c :: cs, sep =>
    if c = sep then [] :: strings.Split cs sep
    else
      match strings.Split cs sep with
      | [] => [[c]]
      | t :: ts => (c :: t) :: ts

/-- Go `strings.Trim(s, cutset)`: `s` with all leading and trailing characters
contained in `cutset` removed. -/
def strings.Trim (s : List Char) (cutset : List Char) : List Char :=
  ((s.dropWhile (fun c => decide (c ∈ cutset))).reverse.dropWhile
    (fun c => decide (c ∈ cutset))).reverse

/-- Go `strings.Join(elems, sep)` for a one-character separator. -/
def strings.Join : List (List Char) → Char → List Char
  | [], _ => []
  | [t], _ => t
  | t :: t2 :: ts, sep => t ++ sep :: strings.Join (t2 :: ts) sep

/-- The decimal digits loop of `strconv.Atoi` / `strconv.ParseUint` in base 10:
`n = n*10 + (ch - '0')`, failing on the first byte that is not `'0'..'9'`. -/
def strconv.digits : List Char → Nat → Option Nat
  | [], n => some n
  | ch :: rest, n =>
    if '0' ≤ ch ∧ ch ≤ '9' then strconv.digits rest (n * 10 + (ch.toNat - '0'.toNat))
    else none

/-- Go `strconv.Atoi(s)` on a platform whose `int` is 64 bits wide: an optional
sign `+` or `-`, then at least one decimal digit and nothing else; `none`
stands for a non-nil error (syntax error, or a value outside
`[-2^63, 2^63 - 1]`). -/
def strconv.Atoi (s : List Char) : Option Int :=
  match s with
  | [] => none
  | c :: cs =>
    let neg := decide (c = '-')
    let body := if c = '-' ∨ c = '+' then cs else s
    if body = [] then none
    else
      match strconv.digits body 0 with
      | none => none
      | some un =>
        if neg then (if un ≤ 2 ^ 63 then some (-(un : Int)) else none)
        else (if un < 2 ^ 63 then some (un : Int) else none)

/-! ## Kubernetes API objects (the fields the sanitizers read) -/

/-- The part of `metav1.ObjectMeta` the sanitizers read. `Annotations` is a Go
map; it is kept as an association list read with `List.lookup`. -/
structure ObjectMeta where
  Annotations : List (String × String) := []
  SelfLink : String := ""
deriving DecidableEq, Repr

/-! ## annotation_config.go -/

/-- The type `SkipAnnotationConfig map[issues.ID]struct{}`: a finite set of issue codes. -/
abbrev SkipAnnotationConfig := Finset Int

/-- The loop body of `NewSkipAnnotationConfig`: trim spaces, `Atoi`, and insert
the code when there was no error. -/
def NewSkipAnnotationConfig.step (skipCodes : SkipAnnotationConfig) (codeStr : List Char) :
    SkipAnnotationConfig :=
  match strconv.Atoi (strings.Trim codeStr [' ']) with
  | some code => insert code skipCodes
  | none => skipCodes

/-- The function `NewSkipAnnotationConfig` of annotation_config.go. -/
def NewSkipAnnotationConfig (md : ObjectMeta) : SkipAnnotationConfig :=
  match md.Annotations.lookup "popeye-skip-sanitizer-codes" with
  | some skipAnnotationValue =>
    (strings.Split skipAnnotationValue.toList ',').foldl NewSkipAnnotationConfig.step ∅
  | none => ∅

/-! ## The issue collector -/

/-- Modelled from the spec: the arguments substituted into a message template.
The formatting helpers `asMC`, `asMB` and `asPerc` are not among the sources; an
argument built with one of them keeps the formatted value under the helper's
tag. -/
inductive Arg where
  | str (s : String)
  | int (n : Int)
  | mc (q : Int)
  | mb (q : Int)
  | perc (r : ℚ)
  | err (msg : String)
deriving DecidableEq

/-- Modelled from the spec: an issue is one recorded occurrence of a code. The
message templates are not among the sources, so the issue keeps the arguments
of its message unrendered. -/
structure Issue where
  code : Int
  args : List Arg
deriving DecidableEq

/-- Modelled from the spec: the package `issues` (type `Collector`) is not among
the sources. The collector maps a fully-qualified name to its outcome, the
issues recorded for it in insertion order; it is kept as the log of all
recorded `(fqn, issue)` pairs in the order they were recorded. -/
abbrev Collector := List (String × Issue)

/-- The outcome of one fully-qualified name: its issues, in insertion order. -/
def Collector.Outcome (col : Collector) (fqn : String) : List Issue :=
  (col.filter (fun e => decide (e.1 = fqn))).map Prod.snd

/-- Modelled from the spec: `InitOutcome(fqn)` creates an empty outcome for
`fqn`, resetting it when it exists. -/
def Collector.InitOutcome (col : Collector) (fqn : String) : Collector :=
  col.filter (fun e => decide (e.1 ≠ fqn))

/-- Modelled from the spec: `AddCode(code, fqn, args...)` unconditionally
appends an issue to the outcome of `fqn`. -/
def Collector.AddCode (col : Collector) (code : Int) (fqn : String) (args : List Arg) :
    Collector :=
  col ++ [(fqn, ⟨code, args⟩)]

/-- Modelled from the spec: `AddSubCode(code, fqn, args...)` is `AddCode` for a
finding attributed to a sub-resource. -/
def Collector.AddSubCode (col : Collector) (code : Int) (fqn : String) (args : List Arg) :
    Collector :=
  col.AddCode code fqn args

/-- Modelled from the spec: `AddSubCodeWithSkipCheck(skipSet, code, fqn, args...)`
records nothing when `code` is a member of `skipSet` and otherwise behaves as
`AddSubCode`. -/
def Collector.AddSubCodeWithSkipCheck (col : Collector) (skipCodes : SkipAnnotationConfig)
    (code : Int) (fqn : String) (args : List Arg) : Collector :=
  if code ∈ skipCodes then col else col.AddSubCode code fqn args

/-! ## Container objects -/

/-- The two kinds of `intstr.IntOrString`. -/
inductive intstr.Kind where
  | Int
  | String
deriving DecidableEq

/-- The type `intstr.IntOrString`; the field `Type` of the source is `Kind` here. -/
structure intstr.IntOrString where
  Kind : intstr.Kind
  IntVal : Int := 0
  StrVal : String := ""
deriving DecidableEq

/-- The type `v1.HTTPGetAction`. -/
structure v1.HTTPGetAction where
  Port : intstr.IntOrString
deriving DecidableEq

/-- The type `v1.Handler`. -/
structure v1.Handler where
  HTTPGet : Option v1.HTTPGetAction := none
deriving DecidableEq

/-- The type `v1.Probe`. -/
structure v1.Probe where
  Handler : v1.Handler := {}
deriving DecidableEq

/-- The type `v1.ContainerPort`. -/
structure v1.ContainerPort where
  Name : String := ""
  ContainerPort : Int
deriving DecidableEq

/-- The type `v1.ResourceRequirements`; a `ResourceList` is a map from resource
name to quantity, kept as an association list. -/
structure v1.ResourceRequirements where
  Limits : List (String × Int) := []
  Requests : List (String × Int) := []
deriving DecidableEq

/-- The type `v1.Container`. -/
structure v1.Container where
  Name : String
  Image : String
  LivenessProbe : Option v1.Probe := none
  ReadinessProbe : Option v1.Probe := none
  Resources : v1.ResourceRequirements := {}
  Ports : List v1.ContainerPort := []
deriving DecidableEq

/-! ## container.go -/

/-- Docker image latest tag. -/
def imageTagLatest : String := "latest"

/-- The `Container` linter: the fully-qualified name it reports under. Its
collector is threaded through the checks as an explicit state. -/
structure Container where
  fqn : String
deriving DecidableEq

/-- The method `Container.checkImageTags`. -/
def Container.checkImageTags (c : Container) (skipCodes : SkipAnnotationConfig)
    (name image : String) (col : Collector) : Collector :=
  let tokens := strings.Split image.toList ':'
  if tokens.length < 2 then
    col.AddSubCodeWithSkipCheck skipCodes 100 c.fqn [.str name]
  else if tokens[1]? = some imageTagLatest.toList then
    col.AddSubCodeWithSkipCheck skipCodes 101 c.fqn [.str name]
  else col

/-- The method `Container.checkNamedProbe`. -/
def Container.checkNamedProbe (c : Container) (skipCodes : SkipAnnotationConfig)
    (co : String) (p : Option v1.Probe) (liveness : Bool) (col : Collector) : Collector :=
  match p with
  | none => col
  | some p =>
    match p.Handler.HTTPGet with
    | none => col
    | some httpGet =>
      let kind := if liveness then "Liveness" else "Readiness"
      if httpGet.Port.Kind = intstr.Kind.Int then
        col.AddSubCodeWithSkipCheck skipCodes 105 c.fqn [.str co, .str kind]
      else col

/-- The method `Container.checkProbes`. -/
def Container.checkProbes (c : Container) (skipCodes : SkipAnnotationConfig)
    (co : v1.Container) (col : Collector) : Collector :=
  if co.LivenessProbe = none ∧ co.ReadinessProbe = none then
    col.AddSubCodeWithSkipCheck skipCodes 102 c.fqn [.str co.Name]
  else
    let col := if co.LivenessProbe = none then
      col.AddSubCodeWithSkipCheck skipCodes 103 c.fqn [.str co.Name] else col
    let col := c.checkNamedProbe skipCodes co.Name co.LivenessProbe true col
    let col := if co.ReadinessProbe = none then
      col.AddSubCodeWithSkipCheck skipCodes 104 c.fqn [.str co.Name] else col
    c.checkNamedProbe skipCodes co.Name co.ReadinessProbe false col

/-- The method `Container.checkResources`. -/
def Container.checkResources (c : Container) (skipCodes : SkipAnnotationConfig)
    (co : v1.Container) (col : Collector) : Collector :=
  if co.Resources.Limits.length = 0 ∧ co.Resources.Requests.length = 0 then
    col.AddSubCodeWithSkipCheck skipCodes 106 c.fqn [.str co.Name]
  else if co.Resources.Requests.length > 0 ∧ co.Resources.Limits.length = 0 then
    col.AddSubCodeWithSkipCheck skipCodes 107 c.fqn [.str co.Name]
  else col

/-- The method `Container.checkNamedPorts`. -/
def Container.checkNamedPorts (c : Container) (skipCodes : SkipAnnotationConfig)
    (co : v1.Container) (col : Collector) : Collector :=
  co.Ports.foldl
    (fun col p =>
      if p.Name.length = 0 then
        col.AddSubCodeWithSkipCheck skipCodes 108 c.fqn [.str co.Name, .int p.ContainerPort]
      else col)
    col

/-- The method `Container.sanitize`: lint a container. -/
def Container.sanitize (c : Container) (md : ObjectMeta) (co : v1.Container)
    (checkProbes : Bool) (col : Collector) : Collector :=
  let skipCodes := NewSkipAnnotationConfig md
  let col := c.checkImageTags skipCodes co.Name co.Image col
  let col := c.checkResources skipCodes co col
  let col := if checkProbes then c.checkProbes skipCodes co col else col
  c.checkNamedPorts skipCodes co col

/-! ## Workload objects of the daemon set sanitizer -/

/-- The type `metav1.LabelSelector`, by its match labels. -/
abbrev LabelSelector := List (String × String)

/-- The type `v1.PodSpec`. -/
structure v1.PodSpec where
  InitContainers : List v1.Container := []
  Containers : List v1.Container := []
deriving DecidableEq

/-- The type `v1.Pod`, with the QOS class of its status. -/
structure v1.Pod where
  Spec : v1.PodSpec := {}
  QOSClass : String := ""
deriving DecidableEq

/-- The type `v1.PodTemplateSpec`. -/
structure v1.PodTemplateSpec where
  ObjectMeta : ObjectMeta := {}
  Spec : v1.PodSpec := {}
deriving DecidableEq

/-- The type `appsv1.DaemonSet`: object metadata, pod selector and pod template. -/
structure appsv1.DaemonSet where
  ObjectMeta : ObjectMeta := {}
  Selector : LabelSelector := []
  Template : v1.PodTemplateSpec := {}
deriving DecidableEq

/-- The type `k8s.Metrics`: one container's current usage sample. A
`resource.Quantity` is kept as its exact integer amount in the unit of its
dimension (millicores for CPU, bytes for memory). -/
structure k8s.Metrics where
  CurrentCPU : Int := 0
  CurrentMEM : Int := 0
deriving DecidableEq

/-- The type `k8s.PodsMetrics`: a map from pod name to the samples of the pod's
containers, kept as an association list read with `List.lookup`. -/
abbrev k8s.PodsMetrics := List (String × List k8s.Metrics)

/-- The type `ConsumptionMetrics`; its zero value has all quantities zero. -/
structure ConsumptionMetrics where
  QOS : String := ""
  CurrentCPU : Int := 0
  CurrentMEM : Int := 0
  RequestCPU : Int := 0
  RequestMEM : Int := 0
deriving DecidableEq

/-- Modelled from the spec: the ratio helpers of `ConsumptionMetrics` are not
among the sources. The spec gives the request-vs-current ratio as a percentage
(usage 1300m against a request of 1000m is 130); a zero request gives 0. -/
def toRatio (current request : Int) : ℚ :=
  if request = 0 then 0 else (current : ℚ) * 100 / (request : ℚ)

/-- Modelled from the spec: `ReqCPURatio`, the CPU request-vs-current percentage. -/
def ConsumptionMetrics.ReqCPURatio (mx : ConsumptionMetrics) : ℚ :=
  toRatio mx.CurrentCPU mx.RequestCPU

/-- Modelled from the spec: `ReqMEMRatio`, the memory request-vs-current percentage. -/
def ConsumptionMetrics.ReqMEMRatio (mx : ConsumptionMetrics) : ℚ :=
  toRatio mx.CurrentMEM mx.RequestMEM

/-- The under- and over-provisioned percentages of one dimension, as returned by
`CPUResourceLimits()` and `MEMResourceLimits()`. -/
structure Allocations where
  UnderPerc : Int
  OverPerc : Int
deriving DecidableEq

/-! ## ds.go -/

/-- The `DaemonSet` sanitizer, by what it reads from its lister: the threshold
configuration and the pods selected by a selector (a Go map, enumerated in some
order). Three helpers whose sources are missing are taken as parameters:
`computePodResources` (the requested CPU and memory of a pod spec) and the
absolute ratios `ReqAbsCPURatio` and `ReqAbsMEMRatio`, which only appear as
message arguments. -/
structure DaemonSet where
  CPUResourceLimits : Allocations
  MEMResourceLimits : Allocations
  ListPodsBySelector : LabelSelector → List (String × v1.Pod)
  computePodResources : v1.PodSpec → Int × Int
  ReqAbsCPURatio : ConsumptionMetrics → ℚ
  ReqAbsMEMRatio : ConsumptionMetrics → ℚ

/-- The body of the pod loop of `daemonsetUsage`. -/
def DaemonSet.daemonsetUsage.step (d : DaemonSet) (pmx : k8s.PodsMetrics)
    (mx : ConsumptionMetrics) (entry : String × v1.Pod) : ConsumptionMetrics :=
  let (cpu, mem) := d.computePodResources entry.2.Spec
  let mx := { mx with
    QOS := entry.2.QOSClass
    RequestCPU := mx.RequestCPU + cpu
    RequestMEM := mx.RequestMEM + mem }
  match pmx.lookup entry.1 with
  | none => mx
  | some ccx =>
    ccx.foldl
      (fun mx cx => { mx with
        CurrentCPU := mx.CurrentCPU + cx.CurrentCPU
        CurrentMEM := mx.CurrentMEM + cx.CurrentMEM })
      mx

/-- The method `DaemonSet.daemonsetUsage`: requested against current usage of
the pods selected by the daemon set. -/
def DaemonSet.daemonsetUsage (d : DaemonSet) (ds : appsv1.DaemonSet)
    (pmx : k8s.PodsMetrics) : ConsumptionMetrics :=
  (d.ListPodsBySelector ds.Selector).foldl (DaemonSet.daemonsetUsage.step d pmx) {}

/-- The method `DaemonSet.checkUtilization` (its error result is always nil). -/
def DaemonSet.checkUtilization (d : DaemonSet) (over : Bool) (fqn : String)
    (ds : appsv1.DaemonSet) (pmx : k8s.PodsMetrics) (col : Collector) : Collector :=
  let mx := d.daemonsetUsage ds pmx
  if mx.RequestCPU = 0 ∧ mx.RequestMEM = 0 then col
  else
    let cpuPerc := mx.ReqCPURatio
    let col :=
      if cpuPerc > 1 ∧ cpuPerc > (d.CPUResourceLimits.UnderPerc : ℚ) then
        col.AddCode 503 fqn [.mc mx.CurrentCPU, .mc mx.RequestCPU, .perc cpuPerc]
      else if over = true ∧ cpuPerc < (d.CPUResourceLimits.OverPerc : ℚ) then
        col.AddCode 504 fqn [.mc mx.CurrentCPU, .mc mx.RequestCPU, .perc (d.ReqAbsCPURatio mx)]
      else col
    let memPerc := mx.ReqMEMRatio
    if memPerc > 1 ∧ memPerc > (d.MEMResourceLimits.UnderPerc : ℚ) then
      col.AddCode 505 fqn [.mb mx.CurrentMEM, .mb mx.RequestMEM, .perc memPerc]
    else if over = true ∧ memPerc < (d.MEMResourceLimits.OverPerc : ℚ) then
      col.AddCode 506 fqn [.mb mx.CurrentMEM, .mb mx.RequestMEM, .perc (d.ReqAbsMEMRatio mx)]
    else col

/-- The method `DaemonSet.checkContainers`: runs through the template and checks
every init container and every container, probes unchecked. -/
def DaemonSet.checkContainers (fqn : String) (spec : v1.PodTemplateSpec)
    (col : Collector) : Collector :=
  let c : Container := { fqn := fqn }
  let col := spec.Spec.InitContainers.foldl (fun col co => c.sanitize spec.ObjectMeta co false col) col
  spec.Spec.Containers.foldl (fun col co => c.sanitize spec.ObjectMeta co false col) col

/-- The helpers of the deprecation check whose sources are missing, taken as
parameters: the key of the annotation that records the version used at
creation, the version read from that annotation's value (`none` when it is
unreadable), and `revFromLink`, the version parsed from a self-link (the empty
string when there is none). -/
structure Revisions where
  revKey : String
  revOf : String → Option String
  revFromLink : String → String

/-- Modelled from the spec: `resourceRev(fqn, annotations)` is not among the
sources. It resolves the version from the annotation recording the version used
at creation; `none` stands for a non-nil error, returned when the annotation is
absent or unreadable. -/
def Revisions.resourceRev (rv : Revisions) (_fqn : String)
    (annotations : List (String × String)) : Option String :=
  match annotations.lookup rv.revKey with
  | none => none
  | some raw => rv.revOf raw

/-- The method `DaemonSet.checkDeprecation`. -/
def DaemonSet.checkDeprecation (rv : Revisions) (fqn : String) (ds : appsv1.DaemonSet)
    (col : Collector) : Collector :=
  let current := "apps/v1"
  match rv.resourceRev fqn ds.ObjectMeta.Annotations with
  | none =>
    let rev := rv.revFromLink ds.ObjectMeta.SelfLink
    if rev = "" then
      col.AddCode 404 fqn [.err "Unable to assert resource version"]
    else if rev ≠ current then
      col.AddCode 403 fqn [.str "DaemonSet", .str rev, .str current]
    else col
  | some rev =>
    if rev ≠ current then
      col.AddCode 403 fqn [.str "DaemonSet", .str rev, .str current]
    else col

/-- The body of the loop of `DaemonSet.Sanitize` for one daemon set: `over` is
the result of `pullOverAllocs(ctx)` and `pmx` the pods metrics filled by
`podsMetrics`, both external. -/
def DaemonSet.Sanitize.step (d : DaemonSet) (rv : Revisions) (over : Bool)
    (pmx : k8s.PodsMetrics) (col : Collector) (entry : String × appsv1.DaemonSet) :
    Collector :=
  let col := col.InitOutcome entry.1
  let col := DaemonSet.checkDeprecation rv entry.1 entry.2 col
  let col := DaemonSet.checkContainers entry.1 entry.2.Template col
  d.checkUtilization over entry.1 entry.2 pmx col

/-- The method `DaemonSet.Sanitize`, over the daemon sets returned by
`ListDaemonSets()` (a Go map, enumerated in some order). Its doc comment in the
source reads "Sanitize configmaps."; the body reads daemon sets only. -/
def DaemonSet.Sanitize (d : DaemonSet) (rv : Revisions) (over : Bool)
    (pmx : k8s.PodsMetrics) (daemonSets : List (String × appsv1.DaemonSet))
    (col : Collector) : Collector :=
  daemonSets.foldl (DaemonSet.Sanitize.step d rv over pmx) col

/-! ## container.go: utilization -/

/-- The type `qos`, declared outside the three files: the two values the source
names and any other value. -/
inductive qos where
  | qosBurstable
  | qosGuaranteed
  | qosOther
deriving DecidableEq

/-- The `PodLimiter` half of the `LimitCollector` embedded in the `Container`
linter: the configured pod CPU and memory limits, both `float64`. -/
structure PodLimiter where
  PodCPULimit : ℚ
  PodMEMLimit : ℚ

/-- The helpers of the container utilization check whose sources are missing,
taken as parameters: `ToPerc`, `toMC`, `toMB` and `containerResources` (the CPU
and memory quantities of a container, each possibly nil, and its QOS class).
`int64OutOfRange` is what the platform's conversion `int64(f)` returns for a
`float64` whose truncation is outside the `int64` range, which Go leaves
implementation-dependent. -/
structure MetricHelpers where
  ToPerc : Int → Int → Int
  toMC : Int → Int
  toMB : Int → Int
  containerResources : v1.Container → Option Int × Option Int × qos
  int64OutOfRange : ℚ → Int

/-- The Go conversion `int64(f)` of a `float64`: truncation toward zero when the
truncated value is within `[-2^63, 2^63 - 1]`, and the implementation-dependent
result `outOfRange f` otherwise. -/
def toInt64 (outOfRange : ℚ → Int) (f : ℚ) : Int :=
  if -(2 : Int) ^ 63 ≤ Int.tdiv f.num f.den ∧ Int.tdiv f.num f.den < (2 : Int) ^ 63 then
    Int.tdiv f.num f.den
  else outOfRange f

/-- The method `Container.checkMetrics`. -/
def Container.checkMetrics (c : Container) (lim : PodLimiter) (hp : MetricHelpers)
    (q : qos) (co : String) (cpu mem ccpu cmem : Int) (col : Collector) : Collector :=
  let percCPU := hp.ToPerc (hp.toMC ccpu) (hp.toMC cpu)
  let cpuLimit := toInt64 hp.int64OutOfRange lim.PodCPULimit
  let percMEM := hp.ToPerc (hp.toMB cmem) (hp.toMB mem)
  let memLimit := toInt64 hp.int64OutOfRange lim.PodMEMLimit
  match q with
  | .qosBurstable =>
    let col := if percCPU > cpuLimit then
      col.AddSubCode 109 c.fqn [.str co, .mc ccpu, .mc cpu, .int cpuLimit, .int percCPU] else col
    if percMEM > memLimit then
      col.AddSubCode 110 c.fqn [.str co, .mb cmem, .mb mem, .int memLimit, .int percMEM] else col
  | .qosGuaranteed =>
    let col := if percCPU > cpuLimit then
      col.AddSubCode 111 c.fqn [.str co, .mc ccpu, .mc cpu, .int cpuLimit, .int percCPU] else col
    if percMEM > memLimit then
      col.AddSubCode 112 c.fqn [.str co, .mb cmem, .mb mem, .int memLimit, .int percMEM] else col
  | .qosOther => col

/-- The method `Container.checkUtilization`. -/
def Container.checkUtilization (c : Container) (lim : PodLimiter) (hp : MetricHelpers)
    (co : v1.Container) (cmx : k8s.Metrics) (col : Collector) : Collector :=
  match hp.containerResources co with
  | (some cpu, some mem, q) =>
    c.checkMetrics lim hp q co.Name cpu mem cmx.CurrentCPU cmx.CurrentMEM col
  | _ => col

/-! ## Auxiliary definitions of the statements -/

/-- The position of a code in the order in which `Container.sanitize` runs its
checks: image tags, resources, probes, named ports. -/
def stage (code : Int) : Nat :=
  if code = 100 ∨ code = 101 then 0
  else if code = 106 ∨ code = 107 then 1
  else if 102 ≤ code ∧ code ≤ 105 then 2
  else 3

/-- The codes of the container checks of `Container.sanitize`. -/
def containerCodes : List Int := [100, 101, 102, 103, 104, 105, 106, 107, 108]

/-- The controller-level codes of the daemon set sanitizer. -/
def controllerCodes : List Int := [403, 404, 503, 504, 505, 506]

/-- The current usage a pod contributes to the aggregate: the sum of its
container samples when the metrics map has an entry for it, zero otherwise. -/
def podCurrent (pmx : k8s.PodsMetrics) (field : k8s.Metrics → Int) (pfqn : String) : Int :=
  match pmx.lookup pfqn with
  | none => 0
  | some ccx => (ccx.map field).sum

/-- A daemon set sanitizer for worked examples with two selected pods, `ns/p1`
and `ns/p2`, each requesting 100m CPU and 10 of memory. -/
def exampleTwoPods : DaemonSet :=
  { CPUResourceLimits := ⟨200, 50⟩
    MEMResourceLimits := ⟨200, 50⟩
    ListPodsBySelector := fun _ => [("ns/p1", {}), ("ns/p2", {})]
    computePodResources := fun _ => (100, 10)
    ReqAbsCPURatio := fun mx => toRatio mx.RequestCPU mx.CurrentCPU
    ReqAbsMEMRatio := fun mx => toRatio mx.RequestMEM mx.CurrentMEM }

/-- Revision helpers for worked examples: the version is the value of the
annotation `rev` when it is non-empty, and the self-link itself stands for the
version parsed from it. -/
def exampleRevisions : Revisions :=
  { revKey := "rev"
    revOf := fun raw => if raw = "" then none else some raw
    revFromLink := fun link => link }

/-- Metric helpers for worked examples: quantities are already in the compared
unit, the percentage is the integer quotient, a container has both quantities
exactly when it declares requests, and an out-of-range conversion gives the
least `int64`, as on amd64. -/
def exampleHelpers (q : qos) : MetricHelpers :=
  { ToPerc := fun v1 v2 => if v2 = 0 then 0 else v1 * 100 / v2
    toMC := fun v => v
    toMB := fun v => v
    containerResources := fun co =>
      (co.Resources.Requests.lookup "cpu", co.Resources.Requests.lookup "memory", q)
    int64OutOfRange := fun _ => -(2 : Int) ^ 63 }

/-- The codes of a log of recorded issues, in order. -/
def Collector.codes (col : Collector) : List Int :=
  col.map (fun e => e.2.code)

/-- Whether a recorded issue passes a skip set: its code is not a member. -/
def Collector.passes (S : SkipAnnotationConfig) (e : String × Issue) : Bool :=
  decide (e.2.code ∉ S)

/-- A check that only records through the skip set: run with skip set `S` on a
collector, it appends what it records with the empty skip set on the empty
collector, the issues whose code is in `S` removed. -/
def SkipFiltered (f : SkipAnnotationConfig → Collector → Collector) : Prop :=
  ∀ (S : SkipAnnotationConfig) (col : Collector),
    f S col = col ++ (f ∅ []).filter (Collector.passes S)

/-- A check that appends to the collector, and only issues with the given codes. -/
def RecordsOnly (codes : List Int) (f : Collector → Collector) : Prop :=
  ∀ col : Collector, ∃ new : Collector, f col = col ++ new ∧ ∀ e ∈ new, e.2.code ∈ codes

/-- A daemon set sanitizer for worked examples: one selected pod `ns/p1` whose
spec requests the given CPU and memory, and the same under- and over-provisioned
percentages for both dimensions. -/
def exampleSanitizer (reqCPU reqMEM under overPerc : Int) : DaemonSet :=
  { CPUResourceLimits := ⟨under, overPerc⟩
    MEMResourceLimits := ⟨under, overPerc⟩
    ListPodsBySelector := fun _ => [("ns/p1", {})]
    computePodResources := fun _ => (reqCPU, reqMEM)
    ReqAbsCPURatio := fun mx => toRatio mx.RequestCPU mx.CurrentCPU
    ReqAbsMEMRatio := fun mx => toRatio mx.RequestMEM mx.CurrentMEM }

/-- The annotation key read by `NewSkipAnnotationConfig`. -/
def skipKey : String := "popeye-skip-sanitizer-codes"

/-- What the loop of `NewSkipAnnotationConfig` does to one token, as a partial
function: the parsed code of the space-trimmed token. -/
def parseToken (codeStr : List Char) : Option Int :=
  strconv.Atoi (strings.Trim codeStr [' '])

/-- The value of a string of decimal digits, most significant digit first. -/
def decimalValue (ds : List Char) : Nat :=
  ds.foldl (fun n ch => n * 10 + (ch.toNat - '0'.toNat)) 0

/-! ## Lemmas on the string functions -/

theorem Split_of_not_mem (sep : Char) : ∀ s : List Char, sep ∉ s → strings.Split s sep = [s]
  | [], _ => rfl
  | c :: cs, h => by
    have hc : c ≠ sep := fun e => h (by simp [e])
    have hcs : sep ∉ cs := fun e => h (by simp [e])
    simp [strings.Split, hc, Split_of_not_mem sep cs hcs]

theorem Split_append_sep (sep : Char) (rest : List Char) :
    ∀ t : List Char, sep ∉ t → strings.Split (t ++ sep :: rest) sep = t :: strings.Split rest sep
  | [], _ => by simp [strings.Split]
  | c :: cs, h => by
    have hc : c ≠ sep := fun e => h (by simp [e])
    have hcs : sep ∉ cs := fun e => h (by simp [e])
    simp [strings.Split, hc, Split_append_sep sep rest cs hcs]

theorem Split_Join (sep : Char) :
    ∀ toks : List (List Char), toks ≠ [] → (∀ t ∈ toks, sep ∉ t) →
      strings.Split (strings.Join toks sep) sep = toks
  | [], h, _ => absurd rfl h
  | [t], _, hs => by
    simpa [strings.Join] using Split_of_not_mem sep t (hs t (by simp))
  | t :: t2 :: ts, _, hs => by
    have ht : sep ∉ t := hs t (by simp)
    have hrest : ∀ u ∈ t2 :: ts, sep ∉ u := fun u hu => hs u (List.mem_cons_of_mem _ hu)
    rw [strings.Join, Split_append_sep sep _ t ht, Split_Join sep (t2 :: ts) (by simp) hrest]

theorem foldl_step_eq (toks : List (List Char)) :
    ∀ S : SkipAnnotationConfig,
      toks.foldl NewSkipAnnotationConfig.step S = S ∪ (toks.filterMap parseToken).toFinset := by
  induction toks with
  | nil => intro S; simp
  | cons t ts ih =>
    intro S
    rw [List.foldl_cons, ih]
    cases h : parseToken t with
    | none =>
      have h2 : strconv.Atoi (strings.Trim t [' ']) = none := h
      simp [NewSkipAnnotationConfig.step, h2, List.filterMap_cons, h]
    | some n =>
      have h2 : strconv.Atoi (strings.Trim t [' ']) = some n := h
      simp only [NewSkipAnnotationConfig.step, h2, List.filterMap_cons, h, List.toFinset_cons]
      ext x
      simp only [Finset.mem_union, Finset.mem_insert]
      tauto

/-- The skip set of a present annotation value, by its tokens. -/
theorem NewSkipAnnotationConfig_some (md : ObjectMeta) (v : String)
    (h : md.Annotations.lookup skipKey = some v) :
    NewSkipAnnotationConfig md = ((strings.Split v.toList ',').filterMap parseToken).toFinset := by
  have h2 : List.lookup "popeye-skip-sanitizer-codes" md.Annotations = some v := h
  simp [NewSkipAnnotationConfig, h2, foldl_step_eq]

/-- The skip set of an annotation value that is the comma-join of comma-free tokens. -/
theorem NewSkipAnnotationConfig_join (md : ObjectMeta) (v : String) (toks : List (List Char))
    (h : md.Annotations.lookup skipKey = some v) (hv : v.toList = strings.Join toks ',')
    (hs : ∀ t ∈ toks, ',' ∉ t) :
    NewSkipAnnotationConfig md = (toks.filterMap parseToken).toFinset := by
  rw [NewSkipAnnotationConfig_some md v h, hv]
  cases toks with
  | nil => simp [strings.Join, strings.Split, parseToken, strings.Trim, strconv.Atoi]
  | cons t ts => rw [Split_Join ',' (t :: ts) (by simp) hs]

theorem digits_eq_foldl :
    ∀ (ds : List Char) (n : Nat), (∀ c ∈ ds, '0' ≤ c ∧ c ≤ '9') →
      strconv.digits ds n = some (ds.foldl (fun n ch => n * 10 + (ch.toNat - '0'.toNat)) n)
  | [], _, _ => rfl
  | c :: cs, n, h => by
    have hc : '0' ≤ c ∧ c ≤ '9' := h c (by simp)
    have hcs : ∀ d ∈ cs, '0' ≤ d ∧ d ≤ '9' := fun d hd => h d (List.mem_cons_of_mem _ hd)
    simp only [strconv.digits, hc, and_self, if_true, List.foldl_cons]
    exact digits_eq_foldl cs _ hcs

theorem digit_ne {c x : Char} (hc : '0' ≤ c ∧ c ≤ '9') (hx : ¬ ('0' ≤ x ∧ x ≤ '9')) : c ≠ x := by
  rintro rfl
  exact hx hc

theorem Atoi_digits (ds : List Char) (hne : ds ≠ []) (hd : ∀ c ∈ ds, '0' ≤ c ∧ c ≤ '9')
    (hr : decimalValue ds < 2 ^ 63) : strconv.Atoi ds = some (decimalValue ds : Int) := by
  cases ds with
  | nil => exact absurd rfl hne
  | cons c cs =>
    have hc : '0' ≤ c ∧ c ≤ '9' := hd c (by simp)
    have h1 : c ≠ '-' := digit_ne hc (by decide)
    have h2 : c ≠ '+' := digit_ne hc (by decide)
    have hdig := digits_eq_foldl (c :: cs) 0 hd
    have hr2 : List.foldl (fun n ch => n * 10 + (ch.toNat - '0'.toNat)) 0 (c :: cs) < 2 ^ 63 := hr
    simp only [strconv.Atoi, h1, h2, or_self, if_false, decide_False, hdig, hr2, if_true,
      reduceCtorEq, Bool.false_eq_true]
    rfl

theorem dropWhile_replicate_append (p : Char → Bool) (x : Char) (hx : p x = true)
    (rest : List Char) : ∀ a : Nat, (List.replicate a x ++ rest).dropWhile p = rest.dropWhile p
  | 0 => by simp
  | a + 1 => by
    simp only [List.replicate_succ, List.cons_append, List.dropWhile_cons, hx, if_true]
    exact dropWhile_replicate_append p x hx rest a

theorem dropWhile_of_head (p : Char → Bool) :
    ∀ l : List Char, (∀ c, l.head? = some c → p c = false) → l.dropWhile p = l
  | [], _ => rfl
  | c :: cs, h => by
    have hc : p c = false := h c rfl
    simp [List.dropWhile_cons, hc]

theorem Trim_spaces (ds : List Char) (a b : Nat) (hd : ∀ c ∈ ds, c ≠ ' ') :
    strings.Trim (List.replicate a ' ' ++ ds ++ List.replicate b ' ') [' '] = ds := by
  have hp : (fun c : Char => decide (c ∈ [' '])) ' ' = true := by simp
  have hkeep : ∀ l : List Char, (∀ c ∈ l, c ≠ ' ') →
      ∀ c, l.head? = some c → (fun c : Char => decide (c ∈ [' '])) c = false := by
    intro l hl c hc
    have : c ∈ l := List.mem_of_mem_head? hc
    simp [hl c this]
  unfold strings.Trim
  rw [List.append_assoc, dropWhile_replicate_append _ ' ' hp]
  cases ds with
  | nil =>
    have h0 : (List.replicate b ' ').dropWhile (fun c : Char => decide (c ∈ [' '])) = [] := by
      simpa only [List.append_nil, List.dropWhile_nil] using dropWhile_replicate_append (fun c : Char => decide (c ∈ [' '])) ' ' hp [] b
    simp only [List.nil_append, h0]
    rfl
  | cons c cs =>
    have hc : c ≠ ' ' := hd c (by simp)
    have h1 : ((c :: cs) ++ List.replicate b ' ').dropWhile (fun c : Char => decide (c ∈ [' ']))
        = (c :: cs) ++ List.replicate b ' ' := by
      simp [List.dropWhile_cons, hc]
    rw [h1, List.reverse_append, List.reverse_replicate, dropWhile_replicate_append _ ' ' hp,
      dropWhile_of_head _ _ (hkeep _ (by
        intro x hx
        exact hd x (List.mem_reverse.1 hx))), List.reverse_reverse]

/-! ## Lemmas on skip-filtered checks -/

theorem AddSubCodeWithSkipCheck_eq (col : Collector) (S : SkipAnnotationConfig) (code : Int)
    (fqn : String) (args : List Arg) :
    col.AddSubCodeWithSkipCheck S code fqn args =
      col ++ (if code ∈ S then [] else [(fqn, ⟨code, args⟩)]) := by
  unfold Collector.AddSubCodeWithSkipCheck Collector.AddSubCode Collector.AddCode
  split_ifs <;> simp

theorem skipFiltered_same : SkipFiltered (fun _ col => col) := by
  intro S col
  simp

theorem skipFiltered_add (code : Int) (fqn : String) (args : List Arg) :
    SkipFiltered (fun S col => col.AddSubCodeWithSkipCheck S code fqn args) := by
  intro S col
  simp only [AddSubCodeWithSkipCheck_eq, Finset.not_mem_empty, if_false, List.nil_append]
  by_cases h : code ∈ S <;> simp [h, Collector.passes]

theorem skipFiltered_comp {f g : SkipAnnotationConfig → Collector → Collector}
    (hf : SkipFiltered f) (hg : SkipFiltered g) : SkipFiltered (fun S col => g S (f S col)) := by
  intro S col
  have h0 : ∀ l : Collector, l.filter (Collector.passes ∅) = l := by
    intro l
    apply List.filter_eq_self.2
    intro e _
    simp [Collector.passes]
  have e1 : g ∅ (f ∅ []) = f ∅ [] ++ g ∅ [] := by
    rw [hg ∅ (f ∅ []), h0]
  show g S (f S col) = col ++ (g ∅ (f ∅ [])).filter (Collector.passes S)
  rw [hg S (f S col), hf S col, e1, List.filter_append, List.append_assoc]

theorem skipFiltered_cond (p : Prop) [Decidable p]
    {f g : SkipAnnotationConfig → Collector → Collector}
    (hf : SkipFiltered f) (hg : SkipFiltered g) :
    SkipFiltered (fun S col => if p then f S col else g S col) := by
  intro S col
  by_cases h : p
  · simpa [h] using hf S col
  · simpa [h] using hg S col

theorem skipFiltered_foldl {α : Type} (f : α → SkipAnnotationConfig → Collector → Collector)
    (hf : ∀ a, SkipFiltered (f a)) :
    ∀ l : List α, SkipFiltered (fun S col => l.foldl (fun col a => f a S col) col)
  | [] => skipFiltered_same
  | a :: l => by
    have h := skipFiltered_comp (hf a) (skipFiltered_foldl f hf l)
    intro S col
    simpa using h S col

theorem checkImageTags_filtered (c : Container) (name image : String) :
    SkipFiltered (fun S col => c.checkImageTags S name image col) := by
  unfold Container.checkImageTags
  exact skipFiltered_cond _ (skipFiltered_add _ _ _)
    (skipFiltered_cond _ (skipFiltered_add _ _ _) skipFiltered_same)

theorem checkResources_filtered (c : Container) (co : v1.Container) :
    SkipFiltered (fun S col => c.checkResources S co col) := by
  unfold Container.checkResources
  exact skipFiltered_cond _ (skipFiltered_add _ _ _)
    (skipFiltered_cond _ (skipFiltered_add _ _ _) skipFiltered_same)

theorem checkNamedProbe_filtered (c : Container) (co : String) (p : Option v1.Probe)
    (liveness : Bool) : SkipFiltered (fun S col => c.checkNamedProbe S co p liveness col) := by
  unfold Container.checkNamedProbe
  cases p with
  | none => exact skipFiltered_same
  | some p =>
    cases h : p.Handler.HTTPGet with
    | none => simpa [h] using skipFiltered_same
    | some g =>
      simpa [h] using skipFiltered_cond (g.Port.Kind = intstr.Kind.Int)
        (skipFiltered_add 105 c.fqn [.str co, .str (if liveness then "Liveness" else "Readiness")])
        skipFiltered_same

theorem checkProbes_filtered (c : Container) (co : v1.Container) :
    SkipFiltered (fun S col => c.checkProbes S co col) := by
  unfold Container.checkProbes
  have h1 : SkipFiltered (fun S col =>
      if co.LivenessProbe = none then
        col.AddSubCodeWithSkipCheck S 103 c.fqn [.str co.Name] else col) :=
    skipFiltered_cond _ (skipFiltered_add _ _ _) skipFiltered_same
  have h2 := skipFiltered_comp h1 (checkNamedProbe_filtered c co.Name co.LivenessProbe true)
  have h3 : SkipFiltered (fun S col =>
      if co.ReadinessProbe = none then
        col.AddSubCodeWithSkipCheck S 104 c.fqn [.str co.Name] else col) :=
    skipFiltered_cond _ (skipFiltered_add _ _ _) skipFiltered_same
  have h4 := skipFiltered_comp (skipFiltered_comp h2 h3)
    (checkNamedProbe_filtered c co.Name co.ReadinessProbe false)
  exact skipFiltered_cond _ (skipFiltered_add _ _ _) h4

theorem checkNamedPorts_filtered (c : Container) (co : v1.Container) :
    SkipFiltered (fun S col => c.checkNamedPorts S co col) := by
  unfold Container.checkNamedPorts
  exact skipFiltered_foldl
    (fun (p : v1.ContainerPort) S col =>
      if p.Name.length = 0 then
        col.AddSubCodeWithSkipCheck S 108 c.fqn [.str co.Name, .int p.ContainerPort]
      else col)
    (fun p => skipFiltered_cond _ (skipFiltered_add _ _ _) skipFiltered_same) co.Ports

/-- The checks of `Container.sanitize`, run with a given skip set. -/
theorem sanitize_filtered (c : Container) (co : v1.Container) (checkProbes : Bool) :
    SkipFiltered (fun S col =>
      c.checkNamedPorts S co
        (if checkProbes = true then
          c.checkProbes S co (c.checkResources S co (c.checkImageTags S co.Name co.Image col))
         else c.checkResources S co (c.checkImageTags S co.Name co.Image col))) := by
  have h12 := skipFiltered_comp (checkImageTags_filtered c co.Name co.Image)
    (checkResources_filtered c co)
  have h3 := skipFiltered_cond (checkProbes = true)
    (skipFiltered_comp h12 (checkProbes_filtered c co)) h12
  exact skipFiltered_comp h3 (checkNamedPorts_filtered c co)

theorem sanitize_eq (c : Container) (md : ObjectMeta) (co : v1.Container) (checkProbes : Bool)
    (col : Collector) :
    c.sanitize md co checkProbes col =
      c.checkNamedPorts (NewSkipAnnotationConfig md) co
        (if checkProbes = true then
          c.checkProbes (NewSkipAnnotationConfig md) co
            (c.checkResources (NewSkipAnnotationConfig md) co
              (c.checkImageTags (NewSkipAnnotationConfig md) co.Name co.Image col))
         else c.checkResources (NewSkipAnnotationConfig md) co
              (c.checkImageTags (NewSkipAnnotationConfig md) co.Name co.Image col)) := by
  unfold Container.sanitize
  cases checkProbes <;> rfl

/-! ## The codes each container check can record -/

theorem recordsOnly_add (S : SkipAnnotationConfig) (code : Int) (fqn : String)
    (args : List Arg) (codes : List Int) (h : code ∈ codes) :
    RecordsOnly codes (fun col => col.AddSubCodeWithSkipCheck S code fqn args) := by
  intro col
  refine ⟨if code ∈ S then [] else [(fqn, ⟨code, args⟩)], AddSubCodeWithSkipCheck_eq _ _ _ _ _, ?_⟩
  intro e he
  by_cases hS : code ∈ S
  · simp [hS] at he
  · simp only [hS, if_false, List.mem_singleton] at he
    rw [he]
    exact h

theorem recordsOnly_same (codes : List Int) : RecordsOnly codes (fun col => col) := by
  intro col
  exact ⟨[], by simp, by simp⟩

theorem recordsOnly_cond (codes : List Int) (p : Prop) [Decidable p] {f g : Collector → Collector}
    (hf : RecordsOnly codes f) (hg : RecordsOnly codes g) :
    RecordsOnly codes (fun col => if p then f col else g col) := by
  intro col
  by_cases h : p
  · simpa [h] using hf col
  · simpa [h] using hg col

theorem recordsOnly_comp (codes : List Int) {f g : Collector → Collector}
    (hf : RecordsOnly codes f) (hg : RecordsOnly codes g) :
    RecordsOnly codes (fun col => g (f col)) := by
  intro col
  obtain ⟨n1, e1, c1⟩ := hf col
  obtain ⟨n2, e2, c2⟩ := hg (f col)
  refine ⟨n1 ++ n2, ?_, ?_⟩
  · show g (f col) = col ++ (n1 ++ n2)
    rw [e2, e1, List.append_assoc]
  · intro e he
    rcases List.mem_append.1 he with h | h
    · exact c1 e h
    · exact c2 e h

theorem recordsOnly_foldl (codes : List Int) {α : Type} (f : α → Collector → Collector)
    (hf : ∀ a, RecordsOnly codes (f a)) :
    ∀ l : List α, RecordsOnly codes (fun col => l.foldl (fun col a => f a col) col)
  | [] => recordsOnly_same codes
  | a :: l => by
    have h := recordsOnly_comp codes (hf a) (recordsOnly_foldl codes f hf l)
    intro col
    simpa using h col

theorem checkImageTags_codes (c : Container) (S : SkipAnnotationConfig) (name image : String) :
    RecordsOnly [100, 101] (fun col => c.checkImageTags S name image col) := by
  unfold Container.checkImageTags
  exact recordsOnly_cond _ _ (recordsOnly_add _ _ _ _ _ (by simp))
    (recordsOnly_cond _ _ (recordsOnly_add _ _ _ _ _ (by simp)) (recordsOnly_same _))

theorem checkResources_codes (c : Container) (S : SkipAnnotationConfig) (co : v1.Container) :
    RecordsOnly [106, 107] (fun col => c.checkResources S co col) := by
  unfold Container.checkResources
  exact recordsOnly_cond _ _ (recordsOnly_add _ _ _ _ _ (by simp))
    (recordsOnly_cond _ _ (recordsOnly_add _ _ _ _ _ (by simp)) (recordsOnly_same _))

theorem checkNamedPorts_codes (c : Container) (S : SkipAnnotationConfig) (co : v1.Container) :
    RecordsOnly [108] (fun col => c.checkNamedPorts S co col) := by
  unfold Container.checkNamedPorts
  exact recordsOnly_foldl [108]
    (fun (p : v1.ContainerPort) col =>
      if p.Name.length = 0 then
        col.AddSubCodeWithSkipCheck S 108 c.fqn [.str co.Name, .int p.ContainerPort]
      else col)
    (fun p => recordsOnly_cond _ _ (recordsOnly_add _ _ _ _ _ (by simp)) (recordsOnly_same _))
    co.Ports

theorem codes_append (a b : Collector) : (a ++ b).codes = a.codes ++ b.codes := by
  simp [Collector.codes]

theorem filter_codes_eq_nil (new : Collector) (codes : List Int) (p : Int → Bool)
    (h : ∀ e ∈ new, e.2.code ∈ codes) (hp : ∀ k ∈ codes, p k = false) :
    new.codes.filter p = [] := by
  apply List.filter_eq_nil_iff.2
  intro k hk
  obtain ⟨e, he, rfl⟩ := List.mem_map.1 hk
  simp [hp _ (h e he)]

/-! ## Claims on the skip-code resolver -/

/-- C2: `NewSkipAnnotationConfig` returns the empty set when the annotation key
is absent; otherwise it returns exactly the set of the integers obtained by
splitting the value on commas, trimming each token and parsing it, the tokens
that fail to parse dropped and duplicates collapsed. Consequently a value with a
non-parsing token inserted between its comma-separated tokens resolves to the
same set as the value without it. -/
theorem C2_resolver (md : ObjectMeta) :
    (md.Annotations.lookup skipKey = none → NewSkipAnnotationConfig md = ∅) ∧
    (∀ v, md.Annotations.lookup skipKey = some v →
      NewSkipAnnotationConfig md =
        ((strings.Split v.toList ',').filterMap
          (fun t => strconv.Atoi (strings.Trim t [' ']))).toFinset) ∧
    (∀ (v : String) (md2 : ObjectMeta) (v2 : String) (before after : List (List Char))
        (bad : List Char),
      md.Annotations.lookup skipKey = some v →
      md2.Annotations.lookup skipKey = some v2 →
      v.toList = strings.Join (before ++ bad :: after) ',' →
      v2.toList = strings.Join (before ++ after) ',' →
      (∀ t ∈ before ++ bad :: after, ',' ∉ t) →
      strconv.Atoi (strings.Trim bad [' ']) = none →
      NewSkipAnnotationConfig md = NewSkipAnnotationConfig md2) := by
  refine ⟨?_, ?_, ?_⟩
  · intro h
    have h2 : List.lookup "popeye-skip-sanitizer-codes" md.Annotations = none := h
    simp [NewSkipAnnotationConfig, h2]
  · intro v h
    exact NewSkipAnnotationConfig_some md v h
  · intro v md2 v2 before after bad h1 h2 hv1 hv2 hs hbad
    have hs2 : ∀ t ∈ before ++ after, ',' ∉ t := by
      intro t ht
      apply hs t
      rcases List.mem_append.1 ht with h | h
      · exact List.mem_append.2 (Or.inl h)
      · exact List.mem_append.2 (Or.inr (List.mem_cons_of_mem _ h))
    rw [NewSkipAnnotationConfig_join md v _ h1 hv1 hs,
      NewSkipAnnotationConfig_join md2 v2 _ h2 hv2 hs2]
    have hb : parseToken bad = none := hbad
    simp [List.filterMap_append, List.filterMap_cons, hb]

/-- C2 at the value "101, abc, 106": it resolves to the codes 101 and 106, as
"101,106" does, and dropping its token " abc" leaves the skip set unchanged. -/
theorem C2_resolver_witness :
    NewSkipAnnotationConfig ⟨[(skipKey, "101, abc, 106")], ""⟩ = {101, 106} ∧
    NewSkipAnnotationConfig ⟨[(skipKey, "101,106")], ""⟩ = {101, 106} ∧
    NewSkipAnnotationConfig ⟨[(skipKey, "101, abc, 106")], ""⟩ =
      NewSkipAnnotationConfig ⟨[(skipKey, "101, 106")], ""⟩ :=
  ⟨by decide, by decide,
   (C2_resolver ⟨[(skipKey, "101, abc, 106")], ""⟩).2.2 "101, abc, 106"
     ⟨[(skipKey, "101, 106")], ""⟩ "101, 106" ["101".toList] [" 106".toList] " abc".toList
     (by decide) (by decide) (by decide) (by decide) (by decide) (by decide)⟩

/-- C3, as the code has it: `NewSkipAnnotationConfig` trims the space character
only. A comma-separated token made of a decimal integer within the `int` range,
surrounded by any number of spaces, puts that integer into the skip set. -/
theorem C3_trims_spaces (md : ObjectMeta) (v : String) (before after : List (List Char))
    (a b : Nat) (ds : List Char)
    (h : md.Annotations.lookup skipKey = some v)
    (hv : v.toList =
      strings.Join (before ++ (List.replicate a ' ' ++ ds ++ List.replicate b ' ') :: after) ',')
    (hs : ∀ t ∈ before ++ after, ',' ∉ t)
    (hne : ds ≠ []) (hd : ∀ c ∈ ds, '0' ≤ c ∧ c ≤ '9') (hr : decimalValue ds < 2 ^ 63) :
    (decimalValue ds : Int) ∈ NewSkipAnnotationConfig md := by
  have hsp : ∀ c ∈ ds, c ≠ ' ' := fun c hc => digit_ne (hd c hc) (by decide)
  have hcm : ∀ c ∈ ds, c ≠ ',' := fun c hc => digit_ne (hd c hc) (by decide)
  have htok : ',' ∉ List.replicate a ' ' ++ ds ++ List.replicate b ' ' := by
    intro hm
    rcases List.mem_append.1 hm with hm | hm
    · rcases List.mem_append.1 hm with hm | hm
      · exact absurd (List.eq_of_mem_replicate hm) (by decide)
      · exact hcm _ hm rfl
    · exact absurd (List.eq_of_mem_replicate hm) (by decide)
  have hall : ∀ t ∈ before ++ (List.replicate a ' ' ++ ds ++ List.replicate b ' ') :: after,
      ',' ∉ t := by
    intro t ht
    rcases List.mem_append.1 ht with h1 | h1
    · exact hs t (List.mem_append.2 (Or.inl h1))
    · rcases List.mem_cons.1 h1 with h2 | h2
      · rw [h2]; exact htok
      · exact hs t (List.mem_append.2 (Or.inr h2))
  rw [NewSkipAnnotationConfig_join md v _ h hv hall]
  have hp : parseToken (List.replicate a ' ' ++ ds ++ List.replicate b ' ')
      = some (decimalValue ds : Int) := by
    unfold parseToken
    rw [Trim_spaces ds a b hsp, Atoi_digits ds hne hd hr]
  rw [List.mem_toFinset, List.mem_filterMap]
  exact ⟨_, List.mem_append.2 (Or.inr (List.mem_cons_self _ _)), hp⟩

/-- C3 at the value "7,  101 ,x": the token "  101 " puts 101 into the skip set. -/
theorem C3_trims_spaces_witness :
    (101 : Int) ∈ NewSkipAnnotationConfig ⟨[(skipKey, "7,  101 ,x")], ""⟩ :=
  C3_trims_spaces ⟨[(skipKey, "7,  101 ,x")], ""⟩ "7,  101 ,x" ["7".toList] ["x".toList]
    2 1 "101".toList (by decide) (by decide) (by decide) (by decide) (by decide) (by decide)

/-- C3 fails for whitespace other than the space: the tokens "\t101" (leading
tab) and "106\n" (trailing newline) are decimal integers surrounded by
whitespace, and neither 101 nor 106 enters the skip set. A decimal integer
outside the `int` range, here 2^63 between spaces, is dropped as well. -/
theorem C3_tab_newline_not_trimmed :
    (101 : Int) ∉ NewSkipAnnotationConfig ⟨[(skipKey, "\t101,106\n")], ""⟩ ∧
    (106 : Int) ∉ NewSkipAnnotationConfig ⟨[(skipKey, "\t101,106\n")], ""⟩ ∧
    NewSkipAnnotationConfig ⟨[(skipKey, "\t101,106\n")], ""⟩ = ∅ ∧
    NewSkipAnnotationConfig ⟨[(skipKey, " 9223372036854775808 ")], ""⟩ = ∅ := by
  decide

/-! ## Claims on the container checks -/

/-- C1: for every container, probe-check flag and metadata, what
`Container.sanitize` records under the skip set of the metadata is what it
records under an empty skip set with exactly the issues whose code is in the
skip set removed: same order, same arguments. -/
theorem C1_sanitize_skips_listed_codes (c : Container) (md md0 : ObjectMeta)
    (co : v1.Container) (checkProbes : Bool) (col : Collector)
    (h0 : NewSkipAnnotationConfig md0 = ∅) :
    c.sanitize md co checkProbes col =
      col ++ (c.sanitize md0 co checkProbes []).filter
        (fun e => decide (e.2.code ∉ NewSkipAnnotationConfig md)) := by
  rw [sanitize_eq c md, sanitize_eq c md0, h0]
  exact sanitize_filtered c co checkProbes (NewSkipAnnotationConfig md) col

/-- C1 at the annotation "101, 106" for a container with image `app:latest`, no
resources, no probes and one unnamed port: 101 and 106 disappear, 102 and 108
are still recorded. -/
theorem C1_sanitize_skips_listed_codes_witness :
    NewSkipAnnotationConfig {} = ∅ ∧
    (Container.sanitize ⟨"ns/p"⟩ {} ⟨"c1", "app:latest", none, none, {}, [⟨"", 80⟩]⟩ true
      []).codes = [101, 106, 102, 108] ∧
    (Container.sanitize ⟨"ns/p"⟩ ⟨[(skipKey, "101, 106")], ""⟩
      ⟨"c1", "app:latest", none, none, {}, [⟨"", 80⟩]⟩ true []).codes = [102, 108] ∧
    Container.sanitize ⟨"ns/p"⟩ ⟨[(skipKey, "101, 106")], ""⟩
      ⟨"c1", "app:latest", none, none, {}, [⟨"", 80⟩]⟩ true [] =
      [] ++ (Container.sanitize ⟨"ns/p"⟩ {}
        ⟨"c1", "app:latest", none, none, {}, [⟨"", 80⟩]⟩ true []).filter
        (fun e => decide (e.2.code ∉ NewSkipAnnotationConfig ⟨[(skipKey, "101, 106")], ""⟩)) :=
  ⟨by decide, by decide, by decide,
   C1_sanitize_skips_listed_codes ⟨"ns/p"⟩ ⟨[(skipKey, "101, 106")], ""⟩ {}
     ⟨"c1", "app:latest", none, none, {}, [⟨"", 80⟩]⟩ true [] (by decide)⟩

/-- C8: for every image string that contains no colon, with an empty skip set,
`Container.checkImageTags` records exactly one issue, code 100 with the
container name as its argument, and so never code 101. -/
theorem C8_untagged_image (c : Container) (name image : String) (col : Collector)
    (h : ':' ∉ image.toList) :
    c.checkImageTags ∅ name image col = col ++ [(c.fqn, ⟨100, [.str name]⟩)] ∧
    (c.checkImageTags ∅ name image []).codes = [100] := by
  have hs : strings.Split image.toList ':' = [image.toList] := Split_of_not_mem ':' _ h
  unfold Container.checkImageTags
  simp only [hs]
  constructor <;> simp [AddSubCodeWithSkipCheck_eq, Collector.codes]

/-- C8 at the image `nginx`: exactly code 100 is recorded. -/
theorem C8_untagged_image_witness :
    ':' ∉ "nginx".toList ∧
    Container.checkImageTags ⟨"ns/p"⟩ ∅ "c1" "nginx" [] = [] ++ [("ns/p", ⟨100, [.str "c1"]⟩)] ∧
    (Container.checkImageTags ⟨"ns/p"⟩ ∅ "c1" "nginx" []).codes = [100] :=
  ⟨by decide, C8_untagged_image ⟨"ns/p"⟩ "c1" "nginx" [] (by decide)⟩

/-- Where the code does flag the latest tag: an image `<repository>:latest` whose
repository part has no colon records exactly code 101 under an empty skip set. -/
theorem checkImageTags_latest_plain (c : Container) (name repository : String)
    (col : Collector) (h : ':' ∉ repository.toList) :
    c.checkImageTags ∅ name (repository ++ ":latest") col =
      col ++ [(c.fqn, ⟨101, [.str name]⟩)] := by
  have hl : (repository ++ ":latest").toList = repository.toList ++ ':' :: "latest".toList := by
    simp [String.toList]
  have hs : strings.Split (repository ++ ":latest").toList ':' =
      [repository.toList, "latest".toList] := by
    rw [hl, Split_append_sep ':' _ _ h, Split_of_not_mem ':' _ (by decide)]
  unfold Container.checkImageTags
  simp only [hs]
  simp [AddSubCodeWithSkipCheck_eq, imageTagLatest]

/-- C9 fails on the code: the image `registry.local:5000/app:latest` is tagged
`latest`, and `Container.checkImageTags` records nothing for it, because it
compares the second colon-separated token, here `5000/app`, with `latest`. For
`app:latest` it records code 101. -/
theorem C9_latest_behind_registry_port :
    Container.checkImageTags ⟨"ns/p"⟩ ∅ "c1" "registry.local:5000/app:latest" [] = [] ∧
    strings.Split "registry.local:5000/app:latest".toList ':' =
      ["registry.local".toList, "5000/app".toList, "latest".toList] ∧
    Container.checkImageTags ⟨"ns/p"⟩ ∅ "c1" "app:latest" [] =
      [("ns/p", ⟨101, [.str "c1"]⟩)] := by
  decide

/-- C10: for every container with neither a liveness nor a readiness probe and
an empty skip set, `Container.checkProbes` records exactly one issue, code 102;
and in `Container.sanitize` with probe checking enabled the recorded codes
among 102 to 105 are exactly one 102. -/
theorem C10_no_probes (c : Container) (co : v1.Container) (col : Collector)
    (hl : co.LivenessProbe = none) (hr : co.ReadinessProbe = none) :
    c.checkProbes ∅ co col = col ++ [(c.fqn, ⟨102, [.str co.Name]⟩)] ∧
    ∀ md : ObjectMeta, NewSkipAnnotationConfig md = ∅ →
      (c.sanitize md co true []).codes.filter (fun k => decide (102 ≤ k ∧ k ≤ 105)) = [102] := by
  have hprobe : ∀ col' : Collector,
      c.checkProbes ∅ co col' = col' ++ [(c.fqn, ⟨102, [.str co.Name]⟩)] := by
    intro col'
    simp [Container.checkProbes, hl, hr, AddSubCodeWithSkipCheck_eq]
  refine ⟨hprobe col, ?_⟩
  intro md hmd
  rw [sanitize_eq, hmd]
  obtain ⟨n1, e1, c1⟩ := checkImageTags_codes c ∅ co.Name co.Image []
  obtain ⟨n2, e2, c2⟩ := checkResources_codes c ∅ co ([] ++ n1)
  obtain ⟨n4, e4, c4⟩ := checkNamedPorts_codes c ∅ co
    ([] ++ n1 ++ n2 ++ [(c.fqn, ⟨102, [.str co.Name]⟩)])
  simp only [if_true] at *
  rw [e1, e2, hprobe, e4]
  simp only [codes_append, List.filter_append, List.nil_append]
  rw [filter_codes_eq_nil n1 [100, 101] _ c1 (by decide),
    filter_codes_eq_nil n2 [106, 107] _ c2 (by decide),
    filter_codes_eq_nil n4 [108] _ c4 (by decide)]
  simp [Collector.codes]

/-- C10 at a container without probes: `checkProbes` records exactly code 102. -/
theorem C10_no_probes_witness :
    Container.checkProbes ⟨"ns/p"⟩ ∅ ⟨"c1", "nginx:1.17", none, none, {}, []⟩ [] =
      [] ++ [("ns/p", ⟨102, [.str "c1"]⟩)] ∧
    (Container.sanitize ⟨"ns/p"⟩ {} ⟨"c1", "nginx:1.17", none, none, {}, []⟩ true
      []).codes.filter (fun k => decide (102 ≤ k ∧ k ≤ 105)) = [102] :=
  ⟨(C10_no_probes ⟨"ns/p"⟩ ⟨"c1", "nginx:1.17", none, none, {}, []⟩ [] rfl rfl).1,
   (C10_no_probes ⟨"ns/p"⟩ ⟨"c1", "nginx:1.17", none, none, {}, []⟩ [] rfl rfl).2 {}
     (by decide)⟩

/-! ## Lemmas on the daemon set utilization check -/

theorem usage_inner_foldl (ccx : List k8s.Metrics) :
    ∀ mx : ConsumptionMetrics,
      (ccx.foldl
        (fun (mx : ConsumptionMetrics) (cx : k8s.Metrics) => { mx with
          CurrentCPU := mx.CurrentCPU + cx.CurrentCPU
          CurrentMEM := mx.CurrentMEM + cx.CurrentMEM }) mx).RequestCPU = mx.RequestCPU ∧
      (ccx.foldl
        (fun (mx : ConsumptionMetrics) (cx : k8s.Metrics) => { mx with
          CurrentCPU := mx.CurrentCPU + cx.CurrentCPU
          CurrentMEM := mx.CurrentMEM + cx.CurrentMEM }) mx).RequestMEM = mx.RequestMEM := by
  induction ccx with
  | nil => intro mx; exact ⟨rfl, rfl⟩
  | cons cx rest ih =>
    intro mx
    rw [List.foldl_cons]
    exact ih _

theorem usage_step_requests (d : DaemonSet) (pmx : k8s.PodsMetrics) (mx : ConsumptionMetrics)
    (entry : String × v1.Pod) :
    (DaemonSet.daemonsetUsage.step d pmx mx entry).RequestCPU =
      mx.RequestCPU + (d.computePodResources entry.2.Spec).1 ∧
    (DaemonSet.daemonsetUsage.step d pmx mx entry).RequestMEM =
      mx.RequestMEM + (d.computePodResources entry.2.Spec).2 := by
  unfold DaemonSet.daemonsetUsage.step
  cases h : pmx.lookup entry.1 with
  | none => exact ⟨rfl, rfl⟩
  | some ccx =>
    simp only []
    constructor
    · rw [(usage_inner_foldl ccx _).1]
    · rw [(usage_inner_foldl ccx _).2]

theorem usage_foldl_requests (d : DaemonSet) (pmx : k8s.PodsMetrics) :
    ∀ (pods : List (String × v1.Pod)) (mx : ConsumptionMetrics),
      (pods.foldl (DaemonSet.daemonsetUsage.step d pmx) mx).RequestCPU =
        mx.RequestCPU + (pods.map (fun e => (d.computePodResources e.2.Spec).1)).sum ∧
      (pods.foldl (DaemonSet.daemonsetUsage.step d pmx) mx).RequestMEM =
        mx.RequestMEM + (pods.map (fun e => (d.computePodResources e.2.Spec).2)).sum := by
  intro pods
  induction pods with
  | nil => intro mx; simp
  | cons e rest ih =>
    intro mx
    rw [List.foldl_cons, List.map_cons, List.sum_cons, List.map_cons, List.sum_cons,
      (ih _).1, (ih _).2, (usage_step_requests d pmx mx e).1, (usage_step_requests d pmx mx e).2]
    constructor <;> ring

/-- The requested quantities of the aggregate are the sums over the selected pods. -/
theorem daemonsetUsage_requests (d : DaemonSet) (ds : appsv1.DaemonSet) (pmx : k8s.PodsMetrics) :
    (d.daemonsetUsage ds pmx).RequestCPU =
      ((d.ListPodsBySelector ds.Selector).map (fun e => (d.computePodResources e.2.Spec).1)).sum ∧
    (d.daemonsetUsage ds pmx).RequestMEM =
      ((d.ListPodsBySelector ds.Selector).map (fun e => (d.computePodResources e.2.Spec).2)).sum := by
  have h := usage_foldl_requests d pmx (d.ListPodsBySelector ds.Selector) {}
  unfold DaemonSet.daemonsetUsage
  constructor
  · rw [h.1]; simp
  · rw [h.2]; simp

theorem checkUtilization_append (d : DaemonSet) (over : Bool) (fqn : String)
    (ds : appsv1.DaemonSet) (pmx : k8s.PodsMetrics) (col : Collector) :
    d.checkUtilization over fqn ds pmx col = col ++ d.checkUtilization over fqn ds pmx [] := by
  unfold DaemonSet.checkUtilization
  simp only [Collector.AddCode]
  split_ifs <;> simp

/-! ## Claims on the daemon set utilization check -/

/-- C4, as the code has it: for a daemon set whose aggregate requests are not
both zero, `DaemonSet.checkUtilization` records 503 (CPU) or 505 (memory) if and
only if the ratio of that dimension, a percentage, exceeds 1 and exceeds the
under-provisioned percentage; the issue carries the current value, the requested
value and the ratio. -/
theorem C4_under_provisioned (d : DaemonSet) (over : Bool) (fqn : String)
    (ds : appsv1.DaemonSet) (pmx : k8s.PodsMetrics) (col : Collector)
    (hreq : ¬ ((d.daemonsetUsage ds pmx).RequestCPU = 0 ∧
      (d.daemonsetUsage ds pmx).RequestMEM = 0)) :
    d.checkUtilization over fqn ds pmx col = col ++ d.checkUtilization over fqn ds pmx [] ∧
    (503 ∈ (d.checkUtilization over fqn ds pmx []).codes ↔
      ((d.daemonsetUsage ds pmx).ReqCPURatio > 1 ∧
        (d.daemonsetUsage ds pmx).ReqCPURatio > (d.CPUResourceLimits.UnderPerc : ℚ))) ∧
    (505 ∈ (d.checkUtilization over fqn ds pmx []).codes ↔
      ((d.daemonsetUsage ds pmx).ReqMEMRatio > 1 ∧
        (d.daemonsetUsage ds pmx).ReqMEMRatio > (d.MEMResourceLimits.UnderPerc : ℚ))) ∧
    (∀ e ∈ d.checkUtilization over fqn ds pmx [], e.2.code = 503 →
      e = (fqn, ⟨503, [.mc (d.daemonsetUsage ds pmx).CurrentCPU,
        .mc (d.daemonsetUsage ds pmx).RequestCPU,
        .perc (d.daemonsetUsage ds pmx).ReqCPURatio]⟩)) ∧
    (∀ e ∈ d.checkUtilization over fqn ds pmx [], e.2.code = 505 →
      e = (fqn, ⟨505, [.mb (d.daemonsetUsage ds pmx).CurrentMEM,
        .mb (d.daemonsetUsage ds pmx).RequestMEM,
        .perc (d.daemonsetUsage ds pmx).ReqMEMRatio]⟩)) := by
  refine ⟨checkUtilization_append d over fqn ds pmx col, ?_⟩
  unfold DaemonSet.checkUtilization
  simp only [hreq, if_false, Collector.AddCode, Collector.codes]
  split_ifs <;> simp_all

/-- C4 at a request of 1000m CPU used at 1300m with an under-provisioned
percentage of 20: the ratio is 130 and code 503 is recorded with the current
value, the requested value and the ratio. -/
theorem C4_under_provisioned_witness :
    ¬ (((exampleSanitizer 1000 0 20 50).daemonsetUsage {} [("ns/p1", [⟨1300, 0⟩])]).RequestCPU = 0 ∧
      ((exampleSanitizer 1000 0 20 50).daemonsetUsage {} [("ns/p1", [⟨1300, 0⟩])]).RequestMEM = 0) ∧
    503 ∈ ((exampleSanitizer 1000 0 20 50).checkUtilization false "ns/ds" {}
      [("ns/p1", [⟨1300, 0⟩])] []).codes ∧
    (exampleSanitizer 1000 0 20 50).checkUtilization false "ns/ds" {}
      [("ns/p1", [⟨1300, 0⟩])] [] = [("ns/ds", ⟨503, [.mc 1300, .mc 1000, .perc 130]⟩)] :=
  ⟨by decide,
   (C4_under_provisioned (exampleSanitizer 1000 0 20 50) false "ns/ds" {}
      [("ns/p1", [⟨1300, 0⟩])] [] (by decide)).2.1.2 ⟨by decide!, by decide!⟩,
   by decide!⟩

/-- C4 fails as stated: with a request of 1000m CPU used at 500m the ratio is 50,
below 100, and with an under-provisioned percentage of 20 code 503 is recorded
all the same, because the code compares the percentage with 1. -/
theorem C4_fires_at_half_usage :
    ((exampleSanitizer 1000 0 20 50).daemonsetUsage {} [("ns/p1", [⟨500, 0⟩])]).ReqCPURatio = 50 ∧
    (exampleSanitizer 1000 0 20 50).checkUtilization false "ns/ds" {}
      [("ns/p1", [⟨500, 0⟩])] [] = [("ns/ds", ⟨503, [.mc 500, .mc 1000, .perc 50]⟩)] := by
  decide!

/-- C5: for a daemon set whose aggregate requests are not both zero and for each
dimension, `DaemonSet.checkUtilization` records the over-provisioning code (504
for CPU, 506 for memory) exactly when the under-provisioning code of that
dimension was not recorded, over-provisioning checks are enabled and the ratio
is below the over-provisioned percentage. At most one of 503 and 504 and at most
one of 505 and 506 is recorded, and with the checks disabled neither 504 nor 506
is. -/
theorem C5_over_provisioned (d : DaemonSet) (over : Bool) (fqn : String)
    (ds : appsv1.DaemonSet) (pmx : k8s.PodsMetrics)
    (hreq : ¬ ((d.daemonsetUsage ds pmx).RequestCPU = 0 ∧
      (d.daemonsetUsage ds pmx).RequestMEM = 0)) :
    (504 ∈ (d.checkUtilization over fqn ds pmx []).codes ↔
      (503 ∉ (d.checkUtilization over fqn ds pmx []).codes ∧ over = true ∧
        (d.daemonsetUsage ds pmx).ReqCPURatio < (d.CPUResourceLimits.OverPerc : ℚ))) ∧
    (506 ∈ (d.checkUtilization over fqn ds pmx []).codes ↔
      (505 ∉ (d.checkUtilization over fqn ds pmx []).codes ∧ over = true ∧
        (d.daemonsetUsage ds pmx).ReqMEMRatio < (d.MEMResourceLimits.OverPerc : ℚ))) ∧
    ((d.checkUtilization over fqn ds pmx []).codes.filter
      (fun k => decide (k = 503 ∨ k = 504))).length ≤ 1 ∧
    ((d.checkUtilization over fqn ds pmx []).codes.filter
      (fun k => decide (k = 505 ∨ k = 506))).length ≤ 1 ∧
    (over = false → 504 ∉ (d.checkUtilization over fqn ds pmx []).codes ∧
      506 ∉ (d.checkUtilization over fqn ds pmx []).codes) := by
  unfold DaemonSet.checkUtilization
  simp only [hreq, if_false, Collector.AddCode, Collector.codes]
  split_ifs <;> simp_all

/-- C5 at a request of 1000m CPU used at 200m with an over-provisioned
percentage of 50 (memory requested and used at 100): code 504 is recorded when the checks are enabled, and nothing
when they are disabled. -/
theorem C5_over_provisioned_witness :
    ¬ (((exampleSanitizer 1000 100 200 50).daemonsetUsage {} [("ns/p1", [⟨200, 100⟩])]).RequestCPU = 0 ∧
      ((exampleSanitizer 1000 100 200 50).daemonsetUsage {} [("ns/p1", [⟨200, 100⟩])]).RequestMEM = 0) ∧
    (504 ∉ ((exampleSanitizer 1000 100 200 50).checkUtilization false "ns/ds" {}
        [("ns/p1", [⟨200, 100⟩])] []).codes ∧
      506 ∉ ((exampleSanitizer 1000 100 200 50).checkUtilization false "ns/ds" {}
        [("ns/p1", [⟨200, 100⟩])] []).codes) ∧
    ((exampleSanitizer 1000 100 200 50).checkUtilization true "ns/ds" {}
      [("ns/p1", [⟨200, 100⟩])] []).codes = [504] ∧
    ((exampleSanitizer 1000 100 200 50).checkUtilization false "ns/ds" {}
      [("ns/p1", [⟨200, 100⟩])] []).codes = [] :=
  ⟨by decide,
   (C5_over_provisioned (exampleSanitizer 1000 100 200 50) false "ns/ds" {}
      [("ns/p1", [⟨200, 100⟩])] (by decide)).2.2.2.2 rfl,
   by decide!, by decide!⟩

/-- C6, as the code has it: for two aggregate records that both pass or both
fail the zero-requests guard (in particular whenever the requested CPU, or the
requested memory, is nonzero in both), agreeing on requested and current CPU
and on the CPU percentages gives the same CPU codes (503, 504 or none) whatever
the memory quantities are, and symmetrically for the memory codes (505, 506 or
none). -/
theorem C6_dimensions_independent (d1 d2 : DaemonSet) (over : Bool) (fqn1 fqn2 : String)
    (ds1 ds2 : appsv1.DaemonSet) (pmx1 pmx2 : k8s.PodsMetrics)
    (hguard : ((d1.daemonsetUsage ds1 pmx1).RequestCPU = 0 ∧
        (d1.daemonsetUsage ds1 pmx1).RequestMEM = 0) ↔
      ((d2.daemonsetUsage ds2 pmx2).RequestCPU = 0 ∧
        (d2.daemonsetUsage ds2 pmx2).RequestMEM = 0)) :
    ((d1.daemonsetUsage ds1 pmx1).RequestCPU = (d2.daemonsetUsage ds2 pmx2).RequestCPU →
      (d1.daemonsetUsage ds1 pmx1).CurrentCPU = (d2.daemonsetUsage ds2 pmx2).CurrentCPU →
      d1.CPUResourceLimits = d2.CPUResourceLimits →
      (d1.checkUtilization over fqn1 ds1 pmx1 []).codes.filter
          (fun k => decide (k = 503 ∨ k = 504)) =
        (d2.checkUtilization over fqn2 ds2 pmx2 []).codes.filter
          (fun k => decide (k = 503 ∨ k = 504))) ∧
    ((d1.daemonsetUsage ds1 pmx1).RequestMEM = (d2.daemonsetUsage ds2 pmx2).RequestMEM →
      (d1.daemonsetUsage ds1 pmx1).CurrentMEM = (d2.daemonsetUsage ds2 pmx2).CurrentMEM →
      d1.MEMResourceLimits = d2.MEMResourceLimits →
      (d1.checkUtilization over fqn1 ds1 pmx1 []).codes.filter
          (fun k => decide (k = 505 ∨ k = 506)) =
        (d2.checkUtilization over fqn2 ds2 pmx2 []).codes.filter
          (fun k => decide (k = 505 ∨ k = 506))) := by
  unfold DaemonSet.checkUtilization
  by_cases hz : (d1.daemonsetUsage ds1 pmx1).RequestCPU = 0 ∧
      (d1.daemonsetUsage ds1 pmx1).RequestMEM = 0
  · have hz2 := hguard.1 hz
    simp [hz.1, hz.2, hz2.1, hz2.2, Collector.codes]
  · have hz2 : ¬ ((d2.daemonsetUsage ds2 pmx2).RequestCPU = 0 ∧
        (d2.daemonsetUsage ds2 pmx2).RequestMEM = 0) := fun h => hz (hguard.2 h)
    simp only [hz, hz2, if_false, Collector.AddCode, Collector.codes,
      ConsumptionMetrics.ReqCPURatio, ConsumptionMetrics.ReqMEMRatio]
    constructor
    · intro h1 h2 h3
      rw [h1, h2, h3]
      split_ifs <;> simp
    · intro h1 h2 h3
      rw [h1, h2, h3]
      split_ifs <;> simp

/-- C6 at two daemon sets that request 1000m CPU used at 200m, one with memory
requested at 100 and used at 100, the other with memory requested at 400 and
used at 300: the CPU codes agree. -/
theorem C6_dimensions_independent_witness :
    (((exampleSanitizer 1000 100 200 50).daemonsetUsage {} [("ns/p1", [⟨200, 100⟩])]).RequestCPU = 0 ∧
        ((exampleSanitizer 1000 100 200 50).daemonsetUsage {} [("ns/p1", [⟨200, 100⟩])]).RequestMEM = 0 ↔
      ((exampleSanitizer 1000 400 200 50).daemonsetUsage {} [("ns/p1", [⟨200, 300⟩])]).RequestCPU = 0 ∧
        ((exampleSanitizer 1000 400 200 50).daemonsetUsage {} [("ns/p1", [⟨200, 300⟩])]).RequestMEM = 0) ∧
    ((exampleSanitizer 1000 100 200 50).checkUtilization true "ns/a" {}
        [("ns/p1", [⟨200, 100⟩])] []).codes.filter (fun k => decide (k = 503 ∨ k = 504)) =
      ((exampleSanitizer 1000 400 200 50).checkUtilization true "ns/b" {}
        [("ns/p1", [⟨200, 300⟩])] []).codes.filter (fun k => decide (k = 503 ∨ k = 504)) ∧
    ((exampleSanitizer 1000 100 200 50).checkUtilization true "ns/a" {}
        [("ns/p1", [⟨200, 100⟩])] []).codes = [504] :=
  ⟨by decide,
   (C6_dimensions_independent (exampleSanitizer 1000 100 200 50)
      (exampleSanitizer 1000 400 200 50) true "ns/a" "ns/b" {} {}
      [("ns/p1", [⟨200, 100⟩])] [("ns/p1", [⟨200, 300⟩])] (by decide)).1
      (by decide) (by decide) (by decide),
   by decide!⟩

/-- C6 fails as stated: two daemon sets with the same thresholds, the checks
enabled, zero requested CPU and 300m current CPU; the one whose pods request no
memory records no CPU code, the one whose pods request memory (100, used at 100)
records the CPU code 504. -/
theorem C6_cpu_code_depends_on_memory_request :
    ((exampleSanitizer 0 0 200 50).daemonsetUsage {} [("ns/p1", [⟨300, 100⟩])]).RequestCPU =
      ((exampleSanitizer 0 100 200 50).daemonsetUsage {} [("ns/p1", [⟨300, 100⟩])]).RequestCPU ∧
    ((exampleSanitizer 0 0 200 50).daemonsetUsage {} [("ns/p1", [⟨300, 100⟩])]).CurrentCPU =
      ((exampleSanitizer 0 100 200 50).daemonsetUsage {} [("ns/p1", [⟨300, 100⟩])]).CurrentCPU ∧
    (exampleSanitizer 0 0 200 50).CPUResourceLimits =
      (exampleSanitizer 0 100 200 50).CPUResourceLimits ∧
    ((exampleSanitizer 0 0 200 50).checkUtilization true "ns/ds" {}
      [("ns/p1", [⟨300, 100⟩])] []).codes = [] ∧
    ((exampleSanitizer 0 100 200 50).checkUtilization true "ns/ds" {}
      [("ns/p1", [⟨300, 100⟩])] []).codes = [504] := by
  decide!

/-- C7: for every daemon set whose selected pods have zero aggregate requested
CPU and zero aggregate requested memory, `DaemonSet.checkUtilization` records
nothing, so none of 503, 504, 505 and 506, whatever the live usage, the
thresholds and the over-provisioning flag are. -/
theorem C7_zero_requests (d : DaemonSet) (over : Bool) (fqn : String)
    (ds : appsv1.DaemonSet) (pmx : k8s.PodsMetrics) (col : Collector)
    (hcpu : ((d.ListPodsBySelector ds.Selector).map
      (fun e => (d.computePodResources e.2.Spec).1)).sum = 0)
    (hmem : ((d.ListPodsBySelector ds.Selector).map
      (fun e => (d.computePodResources e.2.Spec).2)).sum = 0) :
    d.checkUtilization over fqn ds pmx col = col := by
  have hr := daemonsetUsage_requests d ds pmx
  unfold DaemonSet.checkUtilization
  simp [hr.1, hr.2, hcpu, hmem]

/-- C7 at a daemon set whose pod requests nothing and uses 900m CPU and 700 of
memory, with the over-provisioning checks enabled: nothing is recorded. -/
theorem C7_zero_requests_witness :
    (((exampleSanitizer 0 0 20 50).ListPodsBySelector []).map
      (fun e => ((exampleSanitizer 0 0 20 50).computePodResources e.2.Spec).1)).sum = 0 ∧
    (((exampleSanitizer 0 0 20 50).ListPodsBySelector []).map
      (fun e => ((exampleSanitizer 0 0 20 50).computePodResources e.2.Spec).2)).sum = 0 ∧
    (exampleSanitizer 0 0 20 50).checkUtilization true "ns/ds" {}
      [("ns/p1", [⟨900, 700⟩])] [] = [] :=
  ⟨by decide, by decide,
   C7_zero_requests (exampleSanitizer 0 0 20 50) true "ns/ds" {}
     [("ns/p1", [⟨900, 700⟩])] [] (by decide) (by decide)⟩

/-! ## Claims on the probe, resource and port checks -/

theorem string_length_eq_zero (s : String) : s.length = 0 ↔ s = "" := by
  constructor
  · intro h
    cases s with
    | mk data =>
      have hd : data = [] := List.length_eq_zero.1 h
      rw [hd]
  · intro h
    rw [h]
    rfl

theorem checkProbes_append (c : Container) (S : SkipAnnotationConfig) (co : v1.Container)
    (col : Collector) : c.checkProbes S co col = col ++ c.checkProbes S co [] := by
  have e1 : c.checkProbes S co col =
      col ++ (c.checkProbes ∅ co []).filter (Collector.passes S) :=
    checkProbes_filtered c co S col
  have e2 : c.checkProbes S co [] =
      [] ++ (c.checkProbes ∅ co []).filter (Collector.passes S) :=
    checkProbes_filtered c co S []
  rw [e1, e2, List.nil_append]

/-- C11: for every container that has a readiness probe and no liveness probe,
with an empty skip set, `Container.checkProbes` records code 103 exactly once
and never 104 or 102; it records code 105 if and only if the readiness probe is
an HTTP probe whose port is a numeric literal, then exactly once and with the
kind "Readiness". -/
theorem C11_readiness_only (c : Container) (co : v1.Container) (p : v1.Probe)
    (col : Collector) (hl : co.LivenessProbe = none) (hr : co.ReadinessProbe = some p) :
    c.checkProbes ∅ co col = col ++ c.checkProbes ∅ co [] ∧
    (c.checkProbes ∅ co []).codes.count 103 = 1 ∧
    104 ∉ (c.checkProbes ∅ co []).codes ∧
    102 ∉ (c.checkProbes ∅ co []).codes ∧
    (105 ∈ (c.checkProbes ∅ co []).codes ↔
      ∃ g, p.Handler.HTTPGet = some g ∧ g.Port.Kind = intstr.Kind.Int) ∧
    (c.checkProbes ∅ co []).codes.count 105 ≤ 1 ∧
    (∀ e ∈ c.checkProbes ∅ co [], e.2.code = 105 →
      e = (c.fqn, ⟨105, [.str co.Name, .str "Readiness"]⟩)) := by
  refine ⟨checkProbes_append c ∅ co col, ?_⟩
  unfold Container.checkProbes Container.checkNamedProbe
  cases hg : p.Handler.HTTPGet with
  | none => simp [hl, hr, hg, AddSubCodeWithSkipCheck_eq, Collector.codes]
  | some g =>
    by_cases hk : g.Port.Kind = intstr.Kind.Int <;>
      simp [hl, hr, hg, hk, AddSubCodeWithSkipCheck_eq, Collector.codes]

/-- C11 at a container with only a readiness probe, an HTTP probe on the numeric
port 8080: codes 103 and 105 are recorded, 105 with the kind "Readiness". -/
theorem C11_readiness_only_witness :
    (Container.checkProbes ⟨"ns/p"⟩ ∅
      ⟨"c1", "nginx:1.17", none, some ⟨⟨some ⟨⟨intstr.Kind.Int, 8080, ""⟩⟩⟩⟩, {}, []⟩ []).codes.count
        103 = 1 ∧
    Container.checkProbes ⟨"ns/p"⟩ ∅
      ⟨"c1", "nginx:1.17", none, some ⟨⟨some ⟨⟨intstr.Kind.Int, 8080, ""⟩⟩⟩⟩, {}, []⟩ [] =
      [("ns/p", ⟨103, [.str "c1"]⟩), ("ns/p", ⟨105, [.str "c1", .str "Readiness"]⟩)] :=
  ⟨(C11_readiness_only ⟨"ns/p"⟩
      ⟨"c1", "nginx:1.17", none, some ⟨⟨some ⟨⟨intstr.Kind.Int, 8080, ""⟩⟩⟩⟩, {}, []⟩
      ⟨⟨some ⟨⟨intstr.Kind.Int, 8080, ""⟩⟩⟩⟩ [] rfl rfl).2.1,
   by decide⟩

/-- C12: for every container, with an empty skip set, `Container.checkResources`
records exactly code 106 when both the requests and the limits are empty,
exactly code 107 when the requests are non-empty and the limits are empty, and
nothing otherwise; 106 and 107 are never both recorded. -/
theorem C12_resources (c : Container) (co : v1.Container) (col : Collector) :
    (co.Resources.Requests = [] → co.Resources.Limits = [] →
      c.checkResources ∅ co col = col ++ [(c.fqn, ⟨106, [.str co.Name]⟩)]) ∧
    (co.Resources.Requests ≠ [] → co.Resources.Limits = [] →
      c.checkResources ∅ co col = col ++ [(c.fqn, ⟨107, [.str co.Name]⟩)]) ∧
    (co.Resources.Limits ≠ [] → c.checkResources ∅ co col = col) ∧
    ¬ (106 ∈ (c.checkResources ∅ co []).codes ∧ 107 ∈ (c.checkResources ∅ co []).codes) := by
  unfold Container.checkResources
  refine ⟨?_, ?_, ?_, ?_⟩
  · intro h1 h2
    simp [h1, h2, AddSubCodeWithSkipCheck_eq]
  · intro h1 h2
    have h3 : 0 < co.Resources.Requests.length := List.length_pos.2 h1
    simp [h1, h2, h3, AddSubCodeWithSkipCheck_eq]
  · intro h1
    simp [h1]
  · simp only [AddSubCodeWithSkipCheck_eq, Collector.codes]
    split_ifs <;> simp

/-- C12 at three containers: no resources gives 106, requests without limits
gives 107, limits give nothing. -/
theorem C12_resources_witness :
    Container.checkResources ⟨"ns/p"⟩ ∅ ⟨"c1", "nginx:1.17", none, none, ⟨[], []⟩, []⟩ [] =
      [] ++ [("ns/p", ⟨106, [.str "c1"]⟩)] ∧
    Container.checkResources ⟨"ns/p"⟩ ∅
      ⟨"c1", "nginx:1.17", none, none, ⟨[], [("cpu", 100)]⟩, []⟩ [] =
      [] ++ [("ns/p", ⟨107, [.str "c1"]⟩)] ∧
    Container.checkResources ⟨"ns/p"⟩ ∅
      ⟨"c1", "nginx:1.17", none, none, ⟨[("cpu", 200)], [("cpu", 100)]⟩, []⟩ [] = [] :=
  ⟨(C12_resources ⟨"ns/p"⟩ ⟨"c1", "nginx:1.17", none, none, ⟨[], []⟩, []⟩ []).1 rfl rfl,
   (C12_resources ⟨"ns/p"⟩ ⟨"c1", "nginx:1.17", none, none, ⟨[], [("cpu", 100)]⟩, []⟩
      []).2.1 (by decide) rfl,
   (C12_resources ⟨"ns/p"⟩
      ⟨"c1", "nginx:1.17", none, none, ⟨[("cpu", 200)], [("cpu", 100)]⟩, []⟩ []).2.2.1
      (by decide)⟩

theorem count_map_const {α : Type} (f : α → Int) (k : Int) (hf : ∀ a, f a = k) :
    ∀ l : List α, (l.map f).count k = l.length
  | [] => rfl
  | a :: l => by
    rw [List.map_cons, hf a, List.count_cons_self, count_map_const f k hf l, List.length_cons]

theorem checkNamedPorts_eq (c : Container) (name : String) :
    ∀ (ports : List v1.ContainerPort) (col : Collector),
      ports.foldl
        (fun col p =>
          if p.Name.length = 0 then
            col.AddSubCodeWithSkipCheck ∅ 108 c.fqn [.str name, .int p.ContainerPort]
          else col)
        col =
      col ++ (ports.filter (fun p => decide (p.Name = ""))).map
        (fun p => (c.fqn, ⟨108, [.str name, .int p.ContainerPort]⟩))
  | [], col => by simp
  | p :: ports, col => by
    rw [List.foldl_cons, checkNamedPorts_eq c name ports]
    by_cases h : p.Name = ""
    · have h0 : p.Name.length = 0 := (string_length_eq_zero _).2 h
      simp [h, h0, AddSubCodeWithSkipCheck_eq]
    · have h0 : ¬ p.Name.length = 0 := fun e => h ((string_length_eq_zero _).1 e)
      simp [h, h0]

/-- C13: for every container, with an empty skip set, `Container.checkNamedPorts`
records exactly one issue with code 108 per declared port whose name is empty,
in declaration order, each with the container name and the port number, and
nothing for named ports; the number of 108 issues is the number of unnamed
ports. -/
theorem C13_named_ports (c : Container) (co : v1.Container) (col : Collector) :
    c.checkNamedPorts ∅ co col =
      col ++ (co.Ports.filter (fun p => decide (p.Name = ""))).map
        (fun p => (c.fqn, ⟨108, [.str co.Name, .int p.ContainerPort]⟩)) ∧
    (c.checkNamedPorts ∅ co []).codes.count 108 =
      (co.Ports.filter (fun p => decide (p.Name = ""))).length ∧
    (c.checkNamedPorts ∅ co []).length =
      (co.Ports.filter (fun p => decide (p.Name = ""))).length := by
  have h : ∀ col' : Collector, c.checkNamedPorts ∅ co col' =
      col' ++ (co.Ports.filter (fun p => decide (p.Name = ""))).map
        (fun p => (c.fqn, ⟨108, [.str co.Name, .int p.ContainerPort]⟩)) := by
    intro col'
    unfold Container.checkNamedPorts
    exact checkNamedPorts_eq c co.Name co.Ports col'
  refine ⟨h col, ?_, ?_⟩
  · rw [h []]
    simp only [Collector.codes, List.nil_append, List.map_map]
    exact count_map_const _ 108 (fun _ => rfl) _
  · rw [h []]
    simp

/-! ## Lemmas on the codes and the order of `Container.sanitize` -/

theorem recordsOnly_mono {codes codes' : List Int} (h : ∀ k ∈ codes, k ∈ codes')
    {f : Collector → Collector} (hf : RecordsOnly codes f) : RecordsOnly codes' f := by
  intro col
  obtain ⟨new, e, hc⟩ := hf col
  exact ⟨new, e, fun x hx => h _ (hc x hx)⟩

theorem checkNamedProbe_codes (c : Container) (S : SkipAnnotationConfig) (co : String)
    (p : Option v1.Probe) (liveness : Bool) :
    RecordsOnly [102, 103, 104, 105] (fun col => c.checkNamedProbe S co p liveness col) := by
  unfold Container.checkNamedProbe
  cases p with
  | none => exact recordsOnly_same _
  | some p =>
    cases h : p.Handler.HTTPGet with
    | none => simpa [h] using recordsOnly_same [102, 103, 104, 105]
    | some g =>
      simpa [h] using recordsOnly_cond [102, 103, 104, 105] (g.Port.Kind = intstr.Kind.Int)
        (recordsOnly_add S 105 c.fqn
          [.str co, .str (if liveness then "Liveness" else "Readiness")] _ (by simp))
        (recordsOnly_same _)

theorem checkProbes_codes (c : Container) (S : SkipAnnotationConfig) (co : v1.Container) :
    RecordsOnly [102, 103, 104, 105] (fun col => c.checkProbes S co col) := by
  unfold Container.checkProbes
  have h1 : RecordsOnly [102, 103, 104, 105] (fun col =>
      if co.LivenessProbe = none then
        col.AddSubCodeWithSkipCheck S 103 c.fqn [.str co.Name] else col) :=
    recordsOnly_cond _ _ (recordsOnly_add _ _ _ _ _ (by simp)) (recordsOnly_same _)
  have h2 := recordsOnly_comp _ h1 (checkNamedProbe_codes c S co.Name co.LivenessProbe true)
  have h3 : RecordsOnly [102, 103, 104, 105] (fun col =>
      if co.ReadinessProbe = none then
        col.AddSubCodeWithSkipCheck S 104 c.fqn [.str co.Name] else col) :=
    recordsOnly_cond _ _ (recordsOnly_add _ _ _ _ _ (by simp)) (recordsOnly_same _)
  have h4 := recordsOnly_comp _ (recordsOnly_comp _ h2 h3)
    (checkNamedProbe_codes c S co.Name co.ReadinessProbe false)
  exact recordsOnly_cond _ _ (recordsOnly_add _ _ _ _ _ (by simp)) h4

theorem sanitize_append (c : Container) (md : ObjectMeta) (co : v1.Container)
    (checkProbes : Bool) (col : Collector) :
    c.sanitize md co checkProbes col = col ++ c.sanitize md co checkProbes [] := by
  rw [sanitize_eq c md co checkProbes col, sanitize_eq c md co checkProbes []]
  have e1 := sanitize_filtered c co checkProbes (NewSkipAnnotationConfig md) col
  have e2 := sanitize_filtered c co checkProbes (NewSkipAnnotationConfig md) []
  beta_reduce at e1 e2
  rw [List.nil_append] at e2
  rw [e1, e2]

/-- Without the probe check, `Container.sanitize` records codes of the image,
resource and port checks only. -/
theorem sanitize_unprobed_codes (c : Container) (md : ObjectMeta) (co : v1.Container) :
    RecordsOnly [100, 101, 106, 107, 108] (fun col => c.sanitize md co false col) := by
  have h1 : RecordsOnly [100, 101, 106, 107, 108]
      (fun col => c.checkImageTags (NewSkipAnnotationConfig md) co.Name co.Image col) :=
    recordsOnly_mono (by decide) (checkImageTags_codes c _ co.Name co.Image)
  have h2 : RecordsOnly [100, 101, 106, 107, 108]
      (fun col => c.checkResources (NewSkipAnnotationConfig md) co col) :=
    recordsOnly_mono (by decide) (checkResources_codes c _ co)
  have h3 : RecordsOnly [100, 101, 106, 107, 108]
      (fun col => c.checkNamedPorts (NewSkipAnnotationConfig md) co col) :=
    recordsOnly_mono (by decide) (checkNamedPorts_codes c _ co)
  have h := recordsOnly_comp _ (recordsOnly_comp _ h1 h2) h3
  intro col
  simpa [sanitize_eq] using h col

theorem sanitize_foldl_eq (c : Container) (md : ObjectMeta) (checkProbes : Bool) :
    ∀ (cos : List v1.Container) (col : Collector),
      cos.foldl (fun col co => c.sanitize md co checkProbes col) col =
        col ++ (cos.map (fun co => c.sanitize md co checkProbes [])).flatten
  | [], col => by simp
  | co :: cos, col => by
    rw [List.foldl_cons, sanitize_foldl_eq c md checkProbes cos, sanitize_append c md co,
      List.map_cons, List.flatten_cons, List.append_assoc]

theorem checkContainers_eq (fqn : String) (spec : v1.PodTemplateSpec) (col : Collector) :
    DaemonSet.checkContainers fqn spec col =
      col ++ ((spec.Spec.InitContainers ++ spec.Spec.Containers).map
        (fun co => Container.sanitize ⟨fqn⟩ spec.ObjectMeta co false [])).flatten := by
  unfold DaemonSet.checkContainers
  simp only [sanitize_foldl_eq, List.map_append, List.flatten_append, List.append_assoc]

theorem checkContainers_codes (fqn : String) (spec : v1.PodTemplateSpec) :
    RecordsOnly [100, 101, 106, 107, 108] (fun col => DaemonSet.checkContainers fqn spec col) := by
  intro col
  refine ⟨_, checkContainers_eq fqn spec col, ?_⟩
  intro e he
  obtain ⟨l, hl, hel⟩ := List.mem_flatten.1 he
  obtain ⟨co, _, rfl⟩ := List.mem_map.1 hl
  obtain ⟨new, hnew, hc⟩ := sanitize_unprobed_codes ⟨fqn⟩ spec.ObjectMeta co []
  have hnew2 : Container.sanitize ⟨fqn⟩ spec.ObjectMeta co false [] = new := by
    simpa using hnew
  rw [hnew2] at hel
  exact hc e hel

/-! ## Claims on the daemon set container checks and the check order -/

/-- C16: for every pod template, `DaemonSet.checkContainers` records the
concatenation, init containers first and regular containers after, of what
`Container.sanitize` records for each container with the probe flag false; no
issue with a probe code (102, 103, 104 or 105) is recorded, whatever probes the
containers declare. -/
theorem C16_containers_unprobed (fqn : String) (spec : v1.PodTemplateSpec) (col : Collector) :
    DaemonSet.checkContainers fqn spec col =
      col ++ ((spec.Spec.InitContainers ++ spec.Spec.Containers).map
        (fun co => Container.sanitize ⟨fqn⟩ spec.ObjectMeta co false [])).flatten ∧
    ∀ e ∈ DaemonSet.checkContainers fqn spec [],
      e.2.code ≠ 102 ∧ e.2.code ≠ 103 ∧ e.2.code ≠ 104 ∧ e.2.code ≠ 105 := by
  refine ⟨checkContainers_eq fqn spec col, ?_⟩
  intro e he
  obtain ⟨new, hnew, hc⟩ := checkContainers_codes fqn spec []
  have hnew2 : DaemonSet.checkContainers fqn spec [] = new := by simpa using hnew
  rw [hnew2] at he
  have hm := hc e he
  refine ⟨?_, ?_, ?_, ?_⟩ <;> intro h <;> rw [h] at hm <;> exact absurd hm (by decide)

theorem pairwise_stage_const (l : List Int) (n : Nat) (h : ∀ k ∈ l, stage k = n) :
    l.Pairwise (fun a b => stage a ≤ stage b) := by
  apply List.pairwise_of_forall_mem_list
  intro a ha b hb
  rw [h a ha, h b hb]

theorem codes_mem_of_recorded (new : Collector) (codes : List Int)
    (h : ∀ e ∈ new, e.2.code ∈ codes) : ∀ k ∈ new.codes, k ∈ codes := by
  intro k hk
  obtain ⟨e, he, rfl⟩ := List.mem_map.1 hk
  exact h e he

/-- C15, as the code has it: with probe checking enabled `Container.sanitize`
runs its checks in the order image tags, resources, probes, named ports. In what
it records, no issue of a later check precedes an issue of an earlier one: the
image-tag issues (100, 101) come first, then the resource issues (106, 107),
then the probe issues (102 to 105), then the named-port issues (108). -/
theorem C15_check_order (c : Container) (md : ObjectMeta) (co : v1.Container)
    (col : Collector) :
    c.sanitize md co true col = col ++ c.sanitize md co true [] ∧
    (c.sanitize md co true []).codes.Pairwise (fun a b => stage a ≤ stage b) ∧
    ∀ k ∈ (c.sanitize md co true []).codes, k ∈ containerCodes := by
  refine ⟨sanitize_append c md co true col, ?_⟩
  obtain ⟨n1, e1, c1⟩ := checkImageTags_codes c (NewSkipAnnotationConfig md) co.Name co.Image []
  obtain ⟨n2, e2, c2⟩ := checkResources_codes c (NewSkipAnnotationConfig md) co ([] ++ n1)
  obtain ⟨n3, e3, c3⟩ := checkProbes_codes c (NewSkipAnnotationConfig md) co ([] ++ n1 ++ n2)
  obtain ⟨n4, e4, c4⟩ :=
    checkNamedPorts_codes c (NewSkipAnnotationConfig md) co ([] ++ n1 ++ n2 ++ n3)
  have hs : c.sanitize md co true [] = [] ++ n1 ++ n2 ++ n3 ++ n4 := by
    rw [sanitize_eq]
    simp only [if_true] at *
    rw [e1, e2, e3, e4]
  have k1 := codes_mem_of_recorded n1 _ c1
  have k2 := codes_mem_of_recorded n2 _ c2
  have k3 := codes_mem_of_recorded n3 _ c3
  have k4 := codes_mem_of_recorded n4 _ c4
  have s1 : ∀ k ∈ n1.codes, stage k = 0 := fun k hk =>
    (by decide : ∀ k ∈ ([100, 101] : List Int), stage k = 0) k (k1 k hk)
  have s2 : ∀ k ∈ n2.codes, stage k = 1 := fun k hk =>
    (by decide : ∀ k ∈ ([106, 107] : List Int), stage k = 1) k (k2 k hk)
  have s3 : ∀ k ∈ n3.codes, stage k = 2 := fun k hk =>
    (by decide : ∀ k ∈ ([102, 103, 104, 105] : List Int), stage k = 2) k (k3 k hk)
  have s4 : ∀ k ∈ n4.codes, stage k = 3 := fun k hk =>
    (by decide : ∀ k ∈ ([108] : List Int), stage k = 3) k (k4 k hk)
  rw [hs]
  simp only [List.nil_append, codes_append]
  constructor
  · refine List.pairwise_append.2 ⟨List.pairwise_append.2 ⟨List.pairwise_append.2
      ⟨pairwise_stage_const _ 0 s1, pairwise_stage_const _ 1 s2, ?_⟩,
      pairwise_stage_const _ 2 s3, ?_⟩, pairwise_stage_const _ 3 s4, ?_⟩
    · intro a ha b hb
      rw [s1 a ha, s2 b hb]
      decide
    · intro a ha b hb
      rw [s3 b hb]
      rcases List.mem_append.1 ha with h | h
      · rw [s1 a h]; decide
      · rw [s2 a h]; decide
    · intro a ha b hb
      rw [s4 b hb]
      rcases List.mem_append.1 ha with h | h
      · rcases List.mem_append.1 h with h | h
        · rw [s1 a h]; decide
        · rw [s2 a h]; decide
      · rw [s3 a h]; decide
  · intro k hk
    rcases List.mem_append.1 hk with h | h
    · rcases List.mem_append.1 h with h | h
      · rcases List.mem_append.1 h with h | h
        · exact (by decide : ∀ k ∈ ([100, 101] : List Int), k ∈ containerCodes) k (k1 k h)
        · exact (by decide : ∀ k ∈ ([106, 107] : List Int), k ∈ containerCodes) k (k2 k h)
      · exact (by decide : ∀ k ∈ ([102, 103, 104, 105] : List Int), k ∈ containerCodes) k
          (k3 k h)
    · exact (by decide : ∀ k ∈ ([108] : List Int), k ∈ containerCodes) k (k4 k h)

/-- C15 fails as stated: for a container with an untagged image, no resources,
no probes and one unnamed port, probe checking enabled, the recorded codes are
100, 106, 102, 108: the resource issue 106 precedes the probe issue 102. -/
theorem C15_resources_before_probes :
    (Container.sanitize ⟨"ns/p"⟩ {} ⟨"c1", "nginx", none, none, {}, [⟨"", 80⟩]⟩ true
      []).codes = [100, 106, 102, 108] ∧
    List.indexOf (106 : Int)
        (Container.sanitize ⟨"ns/p"⟩ {} ⟨"c1", "nginx", none, none, {}, [⟨"", 80⟩]⟩ true
          []).codes <
      List.indexOf (102 : Int)
        (Container.sanitize ⟨"ns/p"⟩ {} ⟨"c1", "nginx", none, none, {}, [⟨"", 80⟩]⟩ true
          []).codes := by
  decide

/-! ## Claims on the deprecation check and the controller-level codes -/

theorem checkDeprecation_append (rv : Revisions) (fqn : String) (ds : appsv1.DaemonSet)
    (col : Collector) :
    DaemonSet.checkDeprecation rv fqn ds col = col ++ DaemonSet.checkDeprecation rv fqn ds [] := by
  unfold DaemonSet.checkDeprecation
  simp only [Collector.AddCode]
  split <;> split_ifs <;> simp

theorem checkDeprecation_codes (rv : Revisions) (fqn : String) (ds : appsv1.DaemonSet) :
    ∀ e ∈ DaemonSet.checkDeprecation rv fqn ds [], e.2.code ∈ controllerCodes := by
  unfold DaemonSet.checkDeprecation
  simp only [Collector.AddCode]
  split <;> split_ifs <;> simp [controllerCodes]

theorem checkUtilization_codes (d : DaemonSet) (over : Bool) (fqn : String)
    (ds : appsv1.DaemonSet) (pmx : k8s.PodsMetrics) :
    ∀ e ∈ d.checkUtilization over fqn ds pmx [], e.2.code ∈ controllerCodes := by
  unfold DaemonSet.checkUtilization
  simp only [Collector.AddCode]
  split_ifs <;> simp [controllerCodes]

theorem checkContainers_append (fqn : String) (spec : v1.PodTemplateSpec) (col : Collector) :
    DaemonSet.checkContainers fqn spec col = col ++ DaemonSet.checkContainers fqn spec [] := by
  rw [checkContainers_eq fqn spec col, checkContainers_eq fqn spec []]
  simp

/-- One pass of `DaemonSet.Sanitize` over a daemon set: the reset collector,
then what the deprecation check, the container checks and the utilization check
record. -/
theorem Sanitize_step_eq (d : DaemonSet) (rv : Revisions) (over : Bool)
    (pmx : k8s.PodsMetrics) (col : Collector) (fqn : String) (ds : appsv1.DaemonSet) :
    DaemonSet.Sanitize.step d rv over pmx col (fqn, ds) =
      col.InitOutcome fqn ++ DaemonSet.checkDeprecation rv fqn ds [] ++
        DaemonSet.checkContainers fqn ds.Template [] ++ d.checkUtilization over fqn ds pmx [] := by
  unfold DaemonSet.Sanitize.step
  simp only []
  rw [checkUtilization_append, checkContainers_append, checkDeprecation_append]

/-- C14: `DaemonSet.checkDeprecation` records exactly one issue, code 404, when
neither the creation annotation nor the self-link yields a version; nothing
when the resolved version is "apps/v1"; otherwise exactly one issue, code 403,
with the kind "DaemonSet", the resolved version and "apps/v1". Codes 403 and 404
are never both recorded, and after a 404 the pass of `DaemonSet.Sanitize` still
records the container checks and the utilization check. -/
theorem C14_deprecation (d : DaemonSet) (rv : Revisions) (over : Bool)
    (pmx : k8s.PodsMetrics) (fqn : String) (ds : appsv1.DaemonSet) (col : Collector) :
    (rv.resourceRev fqn ds.ObjectMeta.Annotations = none →
      rv.revFromLink ds.ObjectMeta.SelfLink = "" →
      DaemonSet.checkDeprecation rv fqn ds col =
        col ++ [(fqn, ⟨404, [.err "Unable to assert resource version"]⟩)] ∧
      DaemonSet.Sanitize.step d rv over pmx col (fqn, ds) =
        col.InitOutcome fqn ++ [(fqn, ⟨404, [.err "Unable to assert resource version"]⟩)] ++
          DaemonSet.checkContainers fqn ds.Template [] ++
          d.checkUtilization over fqn ds pmx []) ∧
    (∀ rev : String,
      (rv.resourceRev fqn ds.ObjectMeta.Annotations = some rev ∨
        (rv.resourceRev fqn ds.ObjectMeta.Annotations = none ∧
          rv.revFromLink ds.ObjectMeta.SelfLink = rev ∧ rev ≠ "")) →
      (rev = "apps/v1" → DaemonSet.checkDeprecation rv fqn ds col = col) ∧
      (rev ≠ "apps/v1" → DaemonSet.checkDeprecation rv fqn ds col =
        col ++ [(fqn, ⟨403, [.str "DaemonSet", .str rev, .str "apps/v1"]⟩)])) ∧
    ¬ (403 ∈ (DaemonSet.checkDeprecation rv fqn ds []).codes ∧
      404 ∈ (DaemonSet.checkDeprecation rv fqn ds []).codes) ∧
    (DaemonSet.checkDeprecation rv fqn ds []).length ≤ 1 := by
  refine ⟨?_, ?_, ?_, ?_⟩
  · intro h1 h2
    have h404 : ∀ col' : Collector, DaemonSet.checkDeprecation rv fqn ds col' =
        col' ++ [(fqn, ⟨404, [.err "Unable to assert resource version"]⟩)] := by
      intro col'
      simp [DaemonSet.checkDeprecation, h1, h2, Collector.AddCode]
    refine ⟨h404 col, ?_⟩
    rw [Sanitize_step_eq, h404 []]
    simp
  · intro rev h
    rcases h with h | ⟨h1, h2, h3⟩
    · constructor
      · intro hr
        simp [DaemonSet.checkDeprecation, h, hr]
      · intro hr
        simp [DaemonSet.checkDeprecation, h, hr, Collector.AddCode]
    · constructor
      · intro hr
        simp [DaemonSet.checkDeprecation, h1, h2, ← hr, h3]
      · intro hr
        simp [DaemonSet.checkDeprecation, h1, h2, h3, hr, Collector.AddCode]
  · unfold DaemonSet.checkDeprecation
    simp only [Collector.AddCode, Collector.codes]
    split <;> split_ifs <;> simp
  · unfold DaemonSet.checkDeprecation
    simp only [Collector.AddCode]
    split <;> split_ifs <;> simp

/-- C14 at a daemon set without annotations and without a self-link, whose
template has one container with an untagged image and no resources: the pass
records 404 and then the container codes 100 and 106; with the annotation
version "extensions/v1beta1" it records 403 instead. -/
theorem C14_deprecation_witness :
    DaemonSet.checkDeprecation exampleRevisions "ns/ds" {} [] =
      [] ++ [("ns/ds", ⟨404, [.err "Unable to assert resource version"]⟩)] ∧
    (DaemonSet.Sanitize.step (exampleSanitizer 0 0 200 50) exampleRevisions false [] []
      ("ns/ds", { Template := { Spec := { Containers := [⟨"c1", "nginx", none, none, {}, []⟩] } } })).codes
      = [404, 100, 106] ∧
    DaemonSet.checkDeprecation exampleRevisions "ns/ds"
      { ObjectMeta := { Annotations := [("rev", "extensions/v1beta1")] } } [] =
      [] ++ [("ns/ds", ⟨403, [.str "DaemonSet", .str "extensions/v1beta1", .str "apps/v1"]⟩)] :=
  ⟨((C14_deprecation (exampleSanitizer 0 0 200 50) exampleRevisions false [] "ns/ds" {}
      []).1 (by decide) (by decide)).1,
   by decide,
   ((C14_deprecation (exampleSanitizer 0 0 200 50) exampleRevisions false [] "ns/ds"
      { ObjectMeta := { Annotations := [("rev", "extensions/v1beta1")] } } []).2.1
      "extensions/v1beta1" (Or.inl (by decide))).2 (by decide)⟩

theorem lookup_cons_ne (k key v : String) (a : List (String × String)) (h : k ≠ key) :
    List.lookup k ((key, v) :: a) = List.lookup k a := by
  have hb : (k == key) = false := by simpa using h
  simp [List.lookup, hb]

theorem filter_controller_containers (fqn : String) (spec : v1.PodTemplateSpec) :
    (DaemonSet.checkContainers fqn spec []).filter
      (fun e => decide (e.2.code ∈ controllerCodes)) = [] := by
  apply List.filter_eq_nil_iff.2
  intro e he
  obtain ⟨new, hnew, hc⟩ := checkContainers_codes fqn spec []
  have hnew2 : DaemonSet.checkContainers fqn spec [] = new := by simpa using hnew
  rw [hnew2] at he
  have hm := hc e he
  have hno : ∀ k ∈ ([100, 101, 106, 107, 108] : List Int), k ∉ controllerCodes := by decide
  simpa using hno _ hm

/-- C17: the skip annotation does not suppress controller-level codes. For two
daemon sets that agree on every controller annotation other than the skip
annotation, on the self-link and on the selector, whatever their pod templates
and the skip annotations on them are, `checkDeprecation` and `checkUtilization`
record the same issues, and the controller-level issues (403, 404, 503 to 506)
of a pass of `DaemonSet.Sanitize` are identical. -/
theorem C17_controller_codes_not_skipped (d : DaemonSet) (rv : Revisions) (over : Bool)
    (pmx : k8s.PodsMetrics) (fqn : String) (ds ds' : appsv1.DaemonSet) (col : Collector)
    (hkey : rv.revKey ≠ skipKey)
    (hann : ∀ k, k ≠ skipKey →
      ds'.ObjectMeta.Annotations.lookup k = ds.ObjectMeta.Annotations.lookup k)
    (hlink : ds'.ObjectMeta.SelfLink = ds.ObjectMeta.SelfLink)
    (hsel : ds'.Selector = ds.Selector) :
    DaemonSet.checkDeprecation rv fqn ds' col = DaemonSet.checkDeprecation rv fqn ds col ∧
    d.checkUtilization over fqn ds' pmx col = d.checkUtilization over fqn ds pmx col ∧
    (DaemonSet.Sanitize.step d rv over pmx col (fqn, ds')).filter
        (fun e => decide (e.2.code ∈ controllerCodes)) =
      (DaemonSet.Sanitize.step d rv over pmx col (fqn, ds)).filter
        (fun e => decide (e.2.code ∈ controllerCodes)) := by
  have hdep : ∀ col' : Collector,
      DaemonSet.checkDeprecation rv fqn ds' col' = DaemonSet.checkDeprecation rv fqn ds col' := by
    intro col'
    unfold DaemonSet.checkDeprecation Revisions.resourceRev
    rw [hann rv.revKey hkey, hlink]
  have hutil : ∀ col' : Collector,
      d.checkUtilization over fqn ds' pmx col' = d.checkUtilization over fqn ds pmx col' := by
    intro col'
    unfold DaemonSet.checkUtilization DaemonSet.daemonsetUsage
    rw [hsel]
  refine ⟨hdep col, hutil col, ?_⟩
  rw [Sanitize_step_eq, Sanitize_step_eq, hdep [], hutil []]
  simp only [List.filter_append, filter_controller_containers]

/-- C17 at a daemon set created with version "extensions/v1beta1", its pod
using 1300m CPU against a request of 1000m: with the skip annotation
"403, 404, 503" placed on the controller and on its pod template the deprecation
check still records 403 and the pass still records 403 and 503. -/
theorem C17_controller_codes_not_skipped_witness :
    DaemonSet.checkDeprecation exampleRevisions "ns/ds"
        { ObjectMeta := { Annotations :=
            [(skipKey, "403, 404, 503"), ("rev", "extensions/v1beta1")] },
          Template := { ObjectMeta := { Annotations := [(skipKey, "403, 404, 503")] } } } [] =
      DaemonSet.checkDeprecation exampleRevisions "ns/ds"
        { ObjectMeta := { Annotations := [("rev", "extensions/v1beta1")] } } [] ∧
    (DaemonSet.Sanitize.step (exampleSanitizer 1000 0 20 50) exampleRevisions false
      [("ns/p1", [⟨1300, 0⟩])] []
      ("ns/ds",
        { ObjectMeta := { Annotations :=
            [(skipKey, "403, 404, 503"), ("rev", "extensions/v1beta1")] },
          Template := { ObjectMeta := { Annotations := [(skipKey, "403, 404, 503")] } } })).codes
      = [403, 503] :=
  ⟨(C17_controller_codes_not_skipped (exampleSanitizer 1000 0 20 50) exampleRevisions false
      [("ns/p1", [⟨1300, 0⟩])] "ns/ds"
      { ObjectMeta := { Annotations := [("rev", "extensions/v1beta1")] } }
      { ObjectMeta := { Annotations :=
          [(skipKey, "403, 404, 503"), ("rev", "extensions/v1beta1")] },
        Template := { ObjectMeta := { Annotations := [(skipKey, "403, 404, 503")] } } } []
      (by decide) (fun k hk => lookup_cons_ne k skipKey _ _ hk) rfl rfl).1,
   by decide!⟩

/-! ## Claims on the aggregate usage -/

theorem usage_inner_foldl_current (ccx : List k8s.Metrics) :
    ∀ mx : ConsumptionMetrics,
      (ccx.foldl
        (fun (mx : ConsumptionMetrics) (cx : k8s.Metrics) => { mx with
          CurrentCPU := mx.CurrentCPU + cx.CurrentCPU
          CurrentMEM := mx.CurrentMEM + cx.CurrentMEM }) mx).CurrentCPU =
        mx.CurrentCPU + (ccx.map (fun cx => cx.CurrentCPU)).sum ∧
      (ccx.foldl
        (fun (mx : ConsumptionMetrics) (cx : k8s.Metrics) => { mx with
          CurrentCPU := mx.CurrentCPU + cx.CurrentCPU
          CurrentMEM := mx.CurrentMEM + cx.CurrentMEM }) mx).CurrentMEM =
        mx.CurrentMEM + (ccx.map (fun cx => cx.CurrentMEM)).sum := by
  induction ccx with
  | nil => intro mx; simp
  | cons cx rest ih =>
    intro mx
    rw [List.foldl_cons, (ih _).1, (ih _).2]
    simp only [List.map_cons, List.sum_cons]
    constructor <;> ring

theorem usage_step_current (d : DaemonSet) (pmx : k8s.PodsMetrics) (mx : ConsumptionMetrics)
    (entry : String × v1.Pod) :
    (DaemonSet.daemonsetUsage.step d pmx mx entry).CurrentCPU =
      mx.CurrentCPU + podCurrent pmx (fun cx => cx.CurrentCPU) entry.1 ∧
    (DaemonSet.daemonsetUsage.step d pmx mx entry).CurrentMEM =
      mx.CurrentMEM + podCurrent pmx (fun cx => cx.CurrentMEM) entry.1 := by
  unfold DaemonSet.daemonsetUsage.step podCurrent
  cases h : pmx.lookup entry.1 with
  | none => simp
  | some ccx =>
    simp only []
    constructor
    · rw [(usage_inner_foldl_current ccx _).1]
    · rw [(usage_inner_foldl_current ccx _).2]

theorem usage_foldl_current (d : DaemonSet) (pmx : k8s.PodsMetrics) :
    ∀ (pods : List (String × v1.Pod)) (mx : ConsumptionMetrics),
      (pods.foldl (DaemonSet.daemonsetUsage.step d pmx) mx).CurrentCPU =
        mx.CurrentCPU + (pods.map (fun e => podCurrent pmx (fun cx => cx.CurrentCPU) e.1)).sum ∧
      (pods.foldl (DaemonSet.daemonsetUsage.step d pmx) mx).CurrentMEM =
        mx.CurrentMEM + (pods.map (fun e => podCurrent pmx (fun cx => cx.CurrentMEM) e.1)).sum := by
  intro pods
  induction pods with
  | nil => intro mx; simp
  | cons e rest ih =>
    intro mx
    rw [List.foldl_cons, List.map_cons, List.sum_cons, List.map_cons, List.sum_cons,
      (ih _).1, (ih _).2, (usage_step_current d pmx mx e).1, (usage_step_current d pmx mx e).2]
    constructor <;> ring

/-- The current quantities of the aggregate are the sums, over the selected
pods, of what each pod contributes. -/
theorem daemonsetUsage_current (d : DaemonSet) (ds : appsv1.DaemonSet) (pmx : k8s.PodsMetrics) :
    (d.daemonsetUsage ds pmx).CurrentCPU =
      ((d.ListPodsBySelector ds.Selector).map
        (fun e => podCurrent pmx (fun cx => cx.CurrentCPU) e.1)).sum ∧
    (d.daemonsetUsage ds pmx).CurrentMEM =
      ((d.ListPodsBySelector ds.Selector).map
        (fun e => podCurrent pmx (fun cx => cx.CurrentMEM) e.1)).sum := by
  have h := usage_foldl_current d pmx (d.ListPodsBySelector ds.Selector) {}
  unfold DaemonSet.daemonsetUsage
  constructor
  · rw [h.1]; simp
  · rw [h.2]; simp

theorem podCurrent_congr (pmx pmx' : k8s.PodsMetrics) (field : k8s.Metrics → Int)
    (pods : List (String × v1.Pod)) (h : ∀ e ∈ pods, pmx'.lookup e.1 = pmx.lookup e.1) :
    pods.map (fun e => podCurrent pmx' field e.1) = pods.map (fun e => podCurrent pmx field e.1) := by
  apply List.map_congr_left
  intro e he
  unfold podCurrent
  rw [h e he]

/-- C18: `DaemonSet.daemonsetUsage` returns a record whose requested CPU and
memory are the sums of the per-pod requested quantities over the selected pods,
and whose current CPU and memory are the sums of the container samples of the
selected pods that have an entry in the metrics map (a selected pod without an
entry contributes zero). Metrics entries of pods that are not selected
contribute nothing, and the four sums do not depend on the order in which the
pods are enumerated. -/
theorem C18_usage_sums (d : DaemonSet) (ds : appsv1.DaemonSet) (pmx : k8s.PodsMetrics) :
    (d.daemonsetUsage ds pmx).RequestCPU =
      ((d.ListPodsBySelector ds.Selector).map
        (fun e => (d.computePodResources e.2.Spec).1)).sum ∧
    (d.daemonsetUsage ds pmx).RequestMEM =
      ((d.ListPodsBySelector ds.Selector).map
        (fun e => (d.computePodResources e.2.Spec).2)).sum ∧
    (d.daemonsetUsage ds pmx).CurrentCPU =
      ((d.ListPodsBySelector ds.Selector).map
        (fun e => match pmx.lookup e.1 with
          | none => 0
          | some ccx => (ccx.map (fun cx => cx.CurrentCPU)).sum)).sum ∧
    (d.daemonsetUsage ds pmx).CurrentMEM =
      ((d.ListPodsBySelector ds.Selector).map
        (fun e => match pmx.lookup e.1 with
          | none => 0
          | some ccx => (ccx.map (fun cx => cx.CurrentMEM)).sum)).sum ∧
    (∀ pmx' : k8s.PodsMetrics,
      (∀ e ∈ d.ListPodsBySelector ds.Selector, pmx'.lookup e.1 = pmx.lookup e.1) →
      (d.daemonsetUsage ds pmx').CurrentCPU = (d.daemonsetUsage ds pmx).CurrentCPU ∧
      (d.daemonsetUsage ds pmx').CurrentMEM = (d.daemonsetUsage ds pmx).CurrentMEM ∧
      (d.daemonsetUsage ds pmx').RequestCPU = (d.daemonsetUsage ds pmx).RequestCPU ∧
      (d.daemonsetUsage ds pmx').RequestMEM = (d.daemonsetUsage ds pmx).RequestMEM) ∧
    (∀ d' : DaemonSet, d'.computePodResources = d.computePodResources →
      (d'.ListPodsBySelector ds.Selector).Perm (d.ListPodsBySelector ds.Selector) →
      (d'.daemonsetUsage ds pmx).RequestCPU = (d.daemonsetUsage ds pmx).RequestCPU ∧
      (d'.daemonsetUsage ds pmx).RequestMEM = (d.daemonsetUsage ds pmx).RequestMEM ∧
      (d'.daemonsetUsage ds pmx).CurrentCPU = (d.daemonsetUsage ds pmx).CurrentCPU ∧
      (d'.daemonsetUsage ds pmx).CurrentMEM = (d.daemonsetUsage ds pmx).CurrentMEM) := by
  have hr := daemonsetUsage_requests d ds pmx
  have hc := daemonsetUsage_current d ds pmx
  refine ⟨hr.1, hr.2, hc.1, hc.2, ?_, ?_⟩
  · intro pmx' h
    have hr' := daemonsetUsage_requests d ds pmx'
    have hc' := daemonsetUsage_current d ds pmx'
    refine ⟨?_, ?_, ?_, ?_⟩
    · rw [hc'.1, hc.1, podCurrent_congr pmx pmx' _ _ h]
    · rw [hc'.2, hc.2, podCurrent_congr pmx pmx' _ _ h]
    · rw [hr'.1, hr.1]
    · rw [hr'.2, hr.2]
  · intro d' hcomp hperm
    have hr' := daemonsetUsage_requests d' ds pmx
    have hc' := daemonsetUsage_current d' ds pmx
    refine ⟨?_, ?_, ?_, ?_⟩
    · rw [hr'.1, hr.1, hcomp]; exact (hperm.map _).sum_eq
    · rw [hr'.2, hr.2, hcomp]; exact (hperm.map _).sum_eq
    · rw [hc'.1, hc.1]; exact (hperm.map _).sum_eq
    · rw [hc'.2, hc.2]; exact (hperm.map _).sum_eq

/-- C18 at two selected pods of which only `ns/p1` has metrics (two container
samples), with a metrics entry for the unselected pod `ns/other`: the requests
are 200 and 20, the current usage is 12 and 3. -/
theorem C18_usage_sums_witness :
    exampleTwoPods.daemonsetUsage {}
        [("ns/p1", [⟨5, 1⟩, ⟨7, 2⟩]), ("ns/other", [⟨1000, 1000⟩])] =
      { QOS := "", CurrentCPU := 12, CurrentMEM := 3, RequestCPU := 200, RequestMEM := 20 } ∧
    (exampleTwoPods.daemonsetUsage {}
        [("ns/p1", [⟨5, 1⟩, ⟨7, 2⟩]), ("ns/other", [⟨1000, 1000⟩])]).RequestCPU =
      ((exampleTwoPods.ListPodsBySelector []).map
        (fun e => (exampleTwoPods.computePodResources e.2.Spec).1)).sum :=
  ⟨by decide,
   (C18_usage_sums exampleTwoPods {}
      [("ns/p1", [⟨5, 1⟩, ⟨7, 2⟩]), ("ns/other", [⟨1000, 1000⟩])]).1⟩

/-! ## Claims on the resolution of the skip set at each pass -/

/-- C19: the skip set used by `Container.sanitize` depends on nothing but the
value of the annotation "popeye-skip-sanitizer-codes" of the metadata passed in:
two metadata objects that agree on that key give the same skip set and the same
recorded issues whatever their other annotations are. A second pass with
another metadata records exactly what that metadata records on an empty
collector, unaffected by the first pass. -/
theorem C19_resolved_at_each_pass (c : Container) (md md' : ObjectMeta) (co : v1.Container)
    (checkProbes : Bool) (col : Collector)
    (h : md.Annotations.lookup skipKey = md'.Annotations.lookup skipKey) :
    NewSkipAnnotationConfig md = NewSkipAnnotationConfig md' ∧
    c.sanitize md co checkProbes col = c.sanitize md' co checkProbes col ∧
    ∀ md1 : ObjectMeta,
      c.sanitize md co checkProbes (c.sanitize md1 co checkProbes col) =
        c.sanitize md1 co checkProbes col ++ c.sanitize md co checkProbes [] := by
  have hs : NewSkipAnnotationConfig md = NewSkipAnnotationConfig md' := by
    have h2 : List.lookup "popeye-skip-sanitizer-codes" md.Annotations =
        List.lookup "popeye-skip-sanitizer-codes" md'.Annotations := h
    unfold NewSkipAnnotationConfig
    rw [h2]
  refine ⟨hs, ?_, ?_⟩
  · rw [sanitize_eq c md, sanitize_eq c md', hs]
  · intro md1
    exact sanitize_append c md co checkProbes _

/-- C19 at a container with image `app:latest` and no resources: the metadata
with the skip annotation "101" and another annotation resolves as the metadata
with the skip annotation alone, and a pass with the annotation edited to "106"
after a pass with "101" records 101 where the first pass recorded 106. -/
theorem C19_resolved_at_each_pass_witness :
    NewSkipAnnotationConfig ⟨[("team", "a"), (skipKey, "101")], "/x"⟩ =
      NewSkipAnnotationConfig ⟨[(skipKey, "101")], ""⟩ ∧
    (Container.sanitize ⟨"ns/p"⟩ ⟨[(skipKey, "106")], ""⟩
      ⟨"c1", "app:latest", none, none, {}, []⟩ false
      (Container.sanitize ⟨"ns/p"⟩ ⟨[(skipKey, "101")], ""⟩
        ⟨"c1", "app:latest", none, none, {}, []⟩ false [])).codes = [106, 101] :=
  ⟨(C19_resolved_at_each_pass ⟨"ns/p"⟩ ⟨[("team", "a"), (skipKey, "101")], "/x"⟩
      ⟨[(skipKey, "101")], ""⟩ ⟨"c1", "app:latest", none, none, {}, []⟩ false []
      (by decide)).1,
   by decide⟩

/-! ## Claims on the container utilization check -/

/-- For a limit that is not negative and below 2^63, an integer percentage
exceeds the converted limit exactly when it exceeds the limit. -/
theorem gt_toInt64_iff (outOfRange : ℚ → Int) (n : Int) (limit : ℚ) (h : 0 ≤ limit)
    (hlt : limit < 2 ^ 63) : n > toInt64 outOfRange limit ↔ (n : ℚ) > limit := by
  have hnum : 0 ≤ limit.num := Rat.num_nonneg.2 h
  have htr : Int.tdiv limit.num limit.den = ⌊limit⌋ := by
    rw [Rat.floor_def, Int.tdiv_eq_ediv hnum (Int.ofNat_nonneg _)]
  have h0 : (0 : Int) ≤ ⌊limit⌋ := Int.floor_nonneg.2 h
  have h1 : ⌊limit⌋ < (2 : Int) ^ 63 := by
    apply Int.floor_lt.2
    push_cast
    exact hlt
  have hfl : toInt64 outOfRange limit = ⌊limit⌋ := by
    unfold toInt64
    rw [htr, if_pos ⟨by omega, h1⟩]
  rw [hfl, gt_iff_lt, gt_iff_lt, Int.floor_lt]

/-- C20, as the code has it: `Container.checkMetrics` selects its codes by QOS
class. For a Burstable container it records 109 exactly when the CPU percentage
is strictly greater than the pod CPU limit converted to `int64`, and 110 exactly
when the memory percentage is strictly greater than the pod memory limit
converted to `int64`, and no other code; for a Guaranteed container it records
111 and 112 under the same conditions, and no other code; for any other class it
records nothing. For a limit that is not negative and below 2^63 the comparison
is the comparison with the limit itself. It records at most two issues, and
`Container.checkUtilization` runs it only when both the CPU and the memory
quantity of the container are determined. -/
theorem C20_metrics_by_qos (c : Container) (lim : PodLimiter) (hp : MetricHelpers)
    (q : qos) (co : String) (cpu mem ccpu cmem : Int) (col : Collector) :
    c.checkMetrics lim hp q co cpu mem ccpu cmem col =
      col ++ c.checkMetrics lim hp q co cpu mem ccpu cmem [] ∧
    (q = qos.qosBurstable →
      (109 ∈ (c.checkMetrics lim hp q co cpu mem ccpu cmem []).codes ↔
        hp.ToPerc (hp.toMC ccpu) (hp.toMC cpu) > toInt64 hp.int64OutOfRange lim.PodCPULimit) ∧
      (110 ∈ (c.checkMetrics lim hp q co cpu mem ccpu cmem []).codes ↔
        hp.ToPerc (hp.toMB cmem) (hp.toMB mem) > toInt64 hp.int64OutOfRange lim.PodMEMLimit) ∧
      ∀ k ∈ (c.checkMetrics lim hp q co cpu mem ccpu cmem []).codes, k = 109 ∨ k = 110) ∧
    (q = qos.qosGuaranteed →
      (111 ∈ (c.checkMetrics lim hp q co cpu mem ccpu cmem []).codes ↔
        hp.ToPerc (hp.toMC ccpu) (hp.toMC cpu) > toInt64 hp.int64OutOfRange lim.PodCPULimit) ∧
      (112 ∈ (c.checkMetrics lim hp q co cpu mem ccpu cmem []).codes ↔
        hp.ToPerc (hp.toMB cmem) (hp.toMB mem) > toInt64 hp.int64OutOfRange lim.PodMEMLimit) ∧
      ∀ k ∈ (c.checkMetrics lim hp q co cpu mem ccpu cmem []).codes, k = 111 ∨ k = 112) ∧
    (q ≠ qos.qosBurstable → q ≠ qos.qosGuaranteed →
      c.checkMetrics lim hp q co cpu mem ccpu cmem col = col) ∧
    (c.checkMetrics lim hp q co cpu mem ccpu cmem []).length ≤ 2 ∧
    (0 ≤ lim.PodCPULimit → lim.PodCPULimit < 2 ^ 63 →
      (hp.ToPerc (hp.toMC ccpu) (hp.toMC cpu) > toInt64 hp.int64OutOfRange lim.PodCPULimit ↔
        ((hp.ToPerc (hp.toMC ccpu) (hp.toMC cpu) : Int) : ℚ) > lim.PodCPULimit)) ∧
    (0 ≤ lim.PodMEMLimit → lim.PodMEMLimit < 2 ^ 63 →
      (hp.ToPerc (hp.toMB cmem) (hp.toMB mem) > toInt64 hp.int64OutOfRange lim.PodMEMLimit ↔
        ((hp.ToPerc (hp.toMB cmem) (hp.toMB mem) : Int) : ℚ) > lim.PodMEMLimit)) ∧
    (∀ (cont : v1.Container) (cmx : k8s.Metrics),
      ((hp.containerResources cont).1 = none ∨ (hp.containerResources cont).2.1 = none →
        c.checkUtilization lim hp cont cmx col = col) ∧
      (∀ rcpu rmem rq, hp.containerResources cont = (some rcpu, some rmem, rq) →
        c.checkUtilization lim hp cont cmx col =
          c.checkMetrics lim hp rq cont.Name rcpu rmem cmx.CurrentCPU cmx.CurrentMEM col)) := by
  refine ⟨?_, ?_, ?_, ?_, ?_, fun h hlt => gt_toInt64_iff _ _ _ h hlt,
    fun h hlt => gt_toInt64_iff _ _ _ h hlt, ?_⟩
  · unfold Container.checkMetrics
    simp only [Collector.AddSubCode, Collector.AddCode]
    cases q <;> simp only [] <;> (try split_ifs) <;> simp
  · intro hq
    subst hq
    unfold Container.checkMetrics
    simp only [Collector.AddSubCode, Collector.AddCode, Collector.codes]
    split_ifs <;> simp_all
  · intro hq
    subst hq
    unfold Container.checkMetrics
    simp only [Collector.AddSubCode, Collector.AddCode, Collector.codes]
    split_ifs <;> simp_all
  · intro h1 h2
    cases q
    · exact absurd rfl h1
    · exact absurd rfl h2
    · rfl
  · unfold Container.checkMetrics
    simp only [Collector.AddSubCode, Collector.AddCode]
    cases q <;> simp only [] <;> (try split_ifs) <;> simp
  · intro cont cmx
    constructor
    · intro h
      unfold Container.checkUtilization
      rcases hres : hp.containerResources cont with ⟨rc, rm, rq⟩
      rw [hres] at h
      rcases h with h | h
      · simp only at h
        subst h
        rfl
      · simp only at h
        subst h
        cases rc <;> rfl
    · intro rcpu rmem rq hres
      unfold Container.checkUtilization
      rw [hres]

/-- C20 at a container requesting 100m CPU and 100 of memory, using 90m and 50,
with pod limits of 80 for both: a Burstable container records 109 only, a
Guaranteed one 111 only, a container of another class nothing, and a container
without a memory quantity is not checked. -/
theorem C20_metrics_by_qos_witness :
    (Container.checkUtilization ⟨"ns/p"⟩ ⟨80, 80⟩ (exampleHelpers qos.qosBurstable)
      ⟨"c1", "nginx:1.17", none, none, ⟨[], [("cpu", 100), ("memory", 100)]⟩, []⟩ ⟨90, 50⟩ []) =
      [("ns/p", ⟨109, [.str "c1", .mc 90, .mc 100, .int 80, .int 90]⟩)] ∧
    (Container.checkUtilization ⟨"ns/p"⟩ ⟨80, 80⟩ (exampleHelpers qos.qosGuaranteed)
      ⟨"c1", "nginx:1.17", none, none, ⟨[], [("cpu", 100), ("memory", 100)]⟩, []⟩ ⟨90, 50⟩
      []).codes = [111] ∧
    (Container.checkUtilization ⟨"ns/p"⟩ ⟨80, 80⟩ (exampleHelpers qos.qosOther)
      ⟨"c1", "nginx:1.17", none, none, ⟨[], [("cpu", 100), ("memory", 100)]⟩, []⟩ ⟨90, 50⟩
      []).codes = [] ∧
    (Container.checkUtilization ⟨"ns/p"⟩ ⟨80, 80⟩ (exampleHelpers qos.qosBurstable)
      ⟨"c1", "nginx:1.17", none, none, ⟨[], [("cpu", 100)]⟩, []⟩ ⟨90, 50⟩ []) = [] ∧
    (Container.checkMetrics ⟨"ns/p"⟩ ⟨80, 80⟩ (exampleHelpers qos.qosBurstable)
      qos.qosBurstable "c1" 100 100 90 50 []).length ≤ 2 ∧
    ((0 : ℚ) ≤ 80 ∧ (80 : ℚ) < 2 ^ 63) ∧
    ((exampleHelpers qos.qosBurstable).ToPerc ((exampleHelpers qos.qosBurstable).toMC 90)
        ((exampleHelpers qos.qosBurstable).toMC 100) >
        toInt64 (exampleHelpers qos.qosBurstable).int64OutOfRange
          (⟨80, 80⟩ : PodLimiter).PodCPULimit ↔
      (((exampleHelpers qos.qosBurstable).ToPerc ((exampleHelpers qos.qosBurstable).toMC 90)
        ((exampleHelpers qos.qosBurstable).toMC 100) : Int) : ℚ) >
        (⟨80, 80⟩ : PodLimiter).PodCPULimit) :=
  ⟨by decide, by decide, by decide, by decide,
   (C20_metrics_by_qos ⟨"ns/p"⟩ ⟨80, 80⟩ (exampleHelpers qos.qosBurstable)
      qos.qosBurstable "c1" 100 100 90 50 []).2.2.2.2.1,
   ⟨by norm_num, by norm_num⟩,
   (C20_metrics_by_qos ⟨"ns/p"⟩ ⟨80, 80⟩ (exampleHelpers qos.qosBurstable)
      qos.qosBurstable "c1" 100 100 90 50 []).2.2.2.2.2.1 (by norm_num) (by norm_num)⟩

/-- C20 fails as stated: for a Burstable container with the pod limits -1/2 and
percentages 0 (no current usage against requests of 100), the percentage is
strictly greater than the configured limit, and nothing is recorded, because
the limit is converted to `int64`, which is 0. -/
theorem C20_negative_fractional_limit :
    (((exampleHelpers qos.qosBurstable).ToPerc
      ((exampleHelpers qos.qosBurstable).toMC 0)
      ((exampleHelpers qos.qosBurstable).toMC 100) : Int) : ℚ) > (-1 / 2 : ℚ) ∧
    toInt64 (exampleHelpers qos.qosBurstable).int64OutOfRange (-1 / 2 : ℚ) = 0 ∧
    Container.checkMetrics ⟨"ns/p"⟩ ⟨-1 / 2, -1 / 2⟩ (exampleHelpers qos.qosBurstable)
      qos.qosBurstable "c1" 100 100 0 0 [] = [] ∧
    Container.checkUtilization ⟨"ns/p"⟩ ⟨-1 / 2, -1 / 2⟩ (exampleHelpers qos.qosBurstable)
      ⟨"c1", "nginx:1.17", none, none, ⟨[], [("cpu", 100), ("memory", 100)]⟩, []⟩ ⟨0, 0⟩ [] =
      [] := by
  decide!

/-! ## Worked examples of the port and container checks -/

/-- C13 at a container with the ports 80 (unnamed), 443 (named `https`) and 9090
(unnamed): two issues with code 108, for 80 and then for 9090. -/
theorem C13_named_ports_witness :
    Container.checkNamedPorts ⟨"ns/p"⟩ ∅
      ⟨"c1", "nginx:1.17", none, none, {}, [⟨"", 80⟩, ⟨"https", 443⟩, ⟨"", 9090⟩]⟩ [] =
      [("ns/p", ⟨108, [.str "c1", .int 80]⟩), ("ns/p", ⟨108, [.str "c1", .int 9090]⟩)] ∧
    (Container.checkNamedPorts ⟨"ns/p"⟩ ∅
      ⟨"c1", "nginx:1.17", none, none, {}, [⟨"", 80⟩, ⟨"https", 443⟩, ⟨"", 9090⟩]⟩
      []).codes.count 108 =
      (([⟨"", 80⟩, ⟨"https", 443⟩, ⟨"", 9090⟩] : List v1.ContainerPort).filter
        (fun p => decide (p.Name = ""))).length :=
  ⟨by decide,
   (C13_named_ports ⟨"ns/p"⟩
      ⟨"c1", "nginx:1.17", none, none, {}, [⟨"", 80⟩, ⟨"https", 443⟩, ⟨"", 9090⟩]⟩ []).2.1⟩

/-- C16 at a template with an init container `init` (untagged image) and a
container `app` (image `app:latest`, no probes, no resources): the codes are
those of `init` and then those of `app`, and no probe code is among them. -/
theorem C16_containers_unprobed_witness :
    (DaemonSet.checkContainers "ns/ds"
      { Spec := { InitContainers := [⟨"init", "busybox", none, none, {}, []⟩],
                  Containers := [⟨"app", "app:latest", none, none, {}, []⟩] } } []).codes =
      [100, 106, 101, 106] ∧
    ∀ e ∈ DaemonSet.checkContainers "ns/ds"
      { Spec := { InitContainers := [⟨"init", "busybox", none, none, {}, []⟩],
                  Containers := [⟨"app", "app:latest", none, none, {}, []⟩] } } [],
      e.2.code ≠ 102 ∧ e.2.code ≠ 103 ∧ e.2.code ≠ 104 ∧ e.2.code ≠ 105 :=
  ⟨by decide,
   (C16_containers_unprobed "ns/ds"
      { Spec := { InitContainers := [⟨"init", "busybox", none, none, {}, []⟩],
                  Containers := [⟨"app", "app:latest", none, none, {}, []⟩] } } []).2⟩

end Popeye
